import Mathlib

/-!
# SampleVRO: the `DrawHelper` class

A shallow embedding of `SampleVRO/DrawHelper.cpp` and `DrawHelper.h`.

* The object is a record of its sixteen interface pointers and the ellipse.
  A pointer is `none` (`nullptr`) or `some p`, with `p` the value of the pointer.
* Every call that leaves the class (Direct3D, DXGI, Direct2D, DirectWrite, the
  VR bridge, the screen-grab library, `IUnknown::Release`) is appended to a
  log, with the interface pointers it is made on and the arguments it gets.
  The log is the observable behaviour of a member function. A call on a null
  pointer is not interpreted: it is logged with `none` in the place of the
  pointer, so that the use of a null pointer can be read off the log.
* What the platform answers is not decided by the class: every member function
  takes a `Platform` record holding the status code of each fallible call, the
  pointer a successful creation call hands out, the client rectangle and the
  size of the render target.
* `HRESULT` is a signed 32-bit integer on which the code only tests the sign
  (`SUCCEEDED`) and equality with `S_OK`; it is an `Int` here.
* `FLOAT` coordinates are rationals: the only arithmetic the class does on them
  is halving and a comparison, both of which are exact in binary floating point.
* `DrawHelper::CreateD2DResources` is never called and is left out; the four
  pointers only it would set (`pDevice2d`, `pDevice2dContext`) or nothing sets
  (`pRenderTargetBitmap`, `pRenderTargetHwnd`) are members all the same.
-/

namespace SampleVRO

/-! ## Platform types -/

/-- A COM interface pointer: `none` is `nullptr`. -/
abbrev Handle := Option Nat

/-- The status code of a platform call. -/
abbrev HRESULT := Int

/-- The code `S_OK`. -/
abbrev S_OK : HRESULT := 0

/-- The `SUCCEEDED` test of `winerror.h`: the status code is not negative. -/
abbrev SUCCEEDED (hr : HRESULT) : Prop := 0 ≤ hr

/-- The `FAILED` test of `winerror.h`: the status code is negative. -/
abbrev FAILED (hr : HRESULT) : Prop := hr < 0

structure D2D1_POINT_2F where
  x : ℚ
  y : ℚ
deriving DecidableEq

structure D2D1_SIZE_F where
  width : ℚ
  height : ℚ
deriving DecidableEq

structure D2D1_RECT_F where
  left : ℚ
  top : ℚ
  right : ℚ
  bottom : ℚ
deriving DecidableEq

structure D2D1_ELLIPSE where
  point : D2D1_POINT_2F
  radiusX : ℚ
  radiusY : ℚ
deriving DecidableEq

/-- The three colours the class draws with. -/
inductive Color where
  /-- The ellipse brush, `D2D1::ColorF(0, 0.7f, 0)`. -/
  | green
  /-- The text brush, `D2D1::ColorF(0.7f, 0, 0)`. -/
  | red
  /-- The background, `D2D1::ColorF::LightGray`. -/
  | lightGray
deriving DecidableEq

/-- The `min` of `minwindef.h`, which `CalculateLayout` uses: `(a < b) ? a : b`. -/
def minwindef_min (a b : ℚ) : ℚ := if a < b then a else b

/-- The helper `D2D1::Ellipse(center, radiusX, radiusY)`. -/
def Ellipse (center : D2D1_POINT_2F) (radiusX radiusY : ℚ) : D2D1_ELLIPSE :=
  { point := center, radiusX := radiusX, radiusY := radiusY }

/-- The helper `D2D1::RectF(left, top, right, bottom)`. -/
def RectF (left top right bottom : ℚ) : D2D1_RECT_F :=
  { left := left, top := top, right := right, bottom := bottom }

/-- A call that leaves the class, with the pointers and arguments it is made with. -/
inductive Call where
  | D2D1CreateFactory
  | GetClientRect (hwnd : Nat)
  | D3D11CreateDeviceAndSwapChain (hwnd width height : Nat)
  | QueryInterface (device3d : Handle)
  | GetBufferSurface (swapChain : Handle)
  | GetBufferTexture (swapChain : Handle)
  | DWriteCreateFactory
  | CreateTextFormat (dwriteFactory : Handle)
  | CreateDxgiSurfaceRenderTarget (factory surface : Handle)
  | CreateSolidColorBrush (renderTarget : Handle) (color : Color)
  | GetSize (renderTarget : Handle)
  | Init (tex : Handle)
  | BeginDraw (renderTarget : Handle)
  | Clear (renderTarget : Handle) (color : Color)
  | FillEllipse (renderTarget : Handle) (ellipse : D2D1_ELLIPSE) (brush : Handle)
  | DrawText (renderTarget : Handle) (text : List Nat) (cch : Nat) (textFormat : Handle)
      (rect : D2D1_RECT_F) (brush : Handle)
  | EndDraw (renderTarget : Handle)
  | Present (swapChain : Handle)
  | SetOverlayTexture (tex : Handle)
  | SaveWICTextureToFile (context tex : Handle)
  | Release (p : Nat)
deriving DecidableEq

/-- What the platform answers during one call of a member function. -/
structure Platform where
  /-- The fields `rc.right` and `rc.bottom` that `GetClientRect` fills in. -/
  clientRight : Nat
  clientBottom : Nat
  hrCreateDeviceAndSwapChain : HRESULT
  newSwapChain : Nat
  newDevice3d : Nat
  newDevice3dContext : Nat
  hrQueryInterface : HRESULT
  newDxgiDevice : Nat
  hrGetBufferSurface : HRESULT
  newSurface : Nat
  hrGetBufferTex : HRESULT
  newTex : Nat
  hrDWriteCreateFactory : HRESULT
  newDWriteFactory : Nat
  hrCreateTextFormat : HRESULT
  newTextFormat : Nat
  hrCreateRenderTarget : HRESULT
  newRenderTarget : Nat
  hrCreateBrush : HRESULT
  newBrush : Nat
  hrCreateBrushText : HRESULT
  newBrushText : Nat
  /-- The answer of `ID2D1RenderTarget::GetSize`. -/
  rtSize : D2D1_SIZE_F
  hrEndDraw : HRESULT
  hrPresent : HRESULT

/-- The COM rule for an interface out-parameter: a creation call that succeeds
stores the new pointer, one that fails stores `nullptr`. -/
def outParam (hr : HRESULT) (p : Nat) : Handle :=
  if SUCCEEDED hr then some p else none

/-! ## The class -/

/-- The data members of `class DrawHelper` (`DrawHelper.h`, lines 33 to 53). -/
structure DrawHelper where
  pFactory : Handle
  pDevice2d : Handle
  pDevice2dContext : Handle
  pRenderTarget : Handle
  pRenderTargetBitmap : Handle
  pRenderTargetHwnd : Handle
  pBrush : Handle
  pBrushText : Handle
  ellipse : D2D1_ELLIPSE
  pDevice3d : Handle
  pDevice3dContext : Handle
  pTex : Handle
  pDxgiDevice : Handle
  pSurface : Handle
  pSwapChain : Handle
  pDWriteFactory : Handle
  pTextFormat : Handle
deriving DecidableEq

/-- The result of a member function that returns an `HRESULT`. -/
structure Ret where
  self : DrawHelper
  hr : HRESULT
  log : List Call

/-- The result of a `void` member function. -/
structure Eff where
  self : DrawHelper
  log : List Call

/-- The constructor: every pointer is `nullptr`; the ellipse is not initialised,
its indeterminate value is the argument. -/
def DrawHelper.ctor (indeterminate : D2D1_ELLIPSE) : DrawHelper :=
  { pFactory := none, pDevice2d := none, pDevice2dContext := none,
    pRenderTarget := none, pRenderTargetBitmap := none, pRenderTargetHwnd := none,
    pBrush := none, pBrushText := none, ellipse := indeterminate,
    pDevice3d := none, pDevice3dContext := none, pTex := none,
    pDxgiDevice := none, pSurface := none, pSwapChain := none,
    pDWriteFactory := none, pTextFormat := none }

/-- The member function `DrawHelper::Setup`. -/
def Setup (s : DrawHelper) (hr : HRESULT) (newFactory : Nat) : Ret :=
  { self := { s with pFactory := outParam hr newFactory }
    hr := hr
    log := [Call.D2D1CreateFactory] }

/-- Modelled from the spec: `SafeRelease` is declared outside the two source
files (the specification only says that the resources are released); this is
the template of the Direct2D samples the class is based on: a non-null pointer
is released and set to `nullptr`, a null pointer is left alone. -/
def SafeRelease (p : Handle) : Handle × List Call :=
  match p with
  | some q => (none, [Call.Release q])
  | none => (none, [])

/-- The member function `DrawHelper::DiscardGraphicsResources`. -/
def DiscardGraphicsResources (s : DrawHelper) : Eff :=
  let r1 := SafeRelease s.pRenderTarget
  let s := { s with pRenderTarget := r1.1 }
  let r2 := SafeRelease s.pRenderTargetBitmap
  let s := { s with pRenderTargetBitmap := r2.1 }
  let r3 := SafeRelease s.pRenderTargetHwnd
  let s := { s with pRenderTargetHwnd := r3.1 }
  let r4 := SafeRelease s.pBrush
  let s := { s with pBrush := r4.1 }
  let r5 := SafeRelease s.pBrushText
  let s := { s with pBrushText := r5.1 }
  let r6 := SafeRelease s.pTex
  let s := { s with pTex := r6.1 }
  let r7 := SafeRelease s.pSurface
  let s := { s with pSurface := r7.1 }
  let r8 := SafeRelease s.pSwapChain
  let s := { s with pSwapChain := r8.1 }
  let r9 := SafeRelease s.pDWriteFactory
  let s := { s with pDWriteFactory := r9.1 }
  let r10 := SafeRelease s.pTextFormat
  let s := { s with pTextFormat := r10.1 }
  { self := s
    log := r1.2 ++ r2.2 ++ r3.2 ++ r4.2 ++ r5.2 ++ r6.2 ++ r7.2 ++ r8.2 ++ r9.2 ++ r10.2 }

/-- The member function `DrawHelper::Shutdown`. -/
def Shutdown (s : DrawHelper) : Eff :=
  let d := DiscardGraphicsResources s
  let s := d.self
  let r1 := SafeRelease s.pFactory
  let s := { s with pFactory := r1.1 }
  let r2 := SafeRelease s.pDevice2d
  let s := { s with pDevice2d := r2.1 }
  let r3 := SafeRelease s.pDevice2dContext
  let s := { s with pDevice2dContext := r3.1 }
  let r4 := SafeRelease s.pDevice3d
  let s := { s with pDevice3d := r4.1 }
  let r5 := SafeRelease s.pDevice3dContext
  let s := { s with pDevice3dContext := r5.1 }
  let r6 := SafeRelease s.pDxgiDevice
  let s := { s with pDxgiDevice := r6.1 }
  { self := s
    log := d.log ++ r1.2 ++ r2.2 ++ r3.2 ++ r4.2 ++ r5.2 ++ r6.2 }

/-- The member function `DrawHelper::CreateD3DResources`. -/
def CreateD3DResources (s : DrawHelper) (env : Platform) (hwnd : Nat) : Ret :=
  let log := [Call.GetClientRect hwnd,
    Call.D3D11CreateDeviceAndSwapChain hwnd env.clientRight env.clientBottom]
  let hr := env.hrCreateDeviceAndSwapChain
  let s := { s with
    pSwapChain := outParam hr env.newSwapChain
    pDevice3d := outParam hr env.newDevice3d
    pDevice3dContext := outParam hr env.newDevice3dContext }
  if SUCCEEDED hr then
    let log := log ++ [Call.QueryInterface s.pDevice3d]
    let hr := env.hrQueryInterface
    let s := { s with pDxgiDevice := outParam hr env.newDxgiDevice }
    if hr = S_OK then
      let log := log ++ [Call.GetBufferSurface s.pSwapChain]
      let hr := env.hrGetBufferSurface
      let s := { s with pSurface := outParam hr env.newSurface }
      if hr = S_OK then
        let log := log ++ [Call.GetBufferTexture s.pSwapChain]
        let hr := env.hrGetBufferTex
        let s := { s with pTex := outParam hr env.newTex }
        { self := s, hr := hr, log := log }
      else
        { self := s, hr := hr, log := log }
    else
      { self := s, hr := hr, log := log }
  else
    { self := s, hr := hr, log := log }

/-- The member function `DrawHelper::CreateDWriteResources`. -/
def CreateDWriteResources (s : DrawHelper) (env : Platform) : Ret :=
  let log := [Call.DWriteCreateFactory]
  let hr := env.hrDWriteCreateFactory
  let s := { s with pDWriteFactory := outParam hr env.newDWriteFactory }
  if SUCCEEDED hr then
    let log := log ++ [Call.CreateTextFormat s.pDWriteFactory]
    let hr := env.hrCreateTextFormat
    let s := { s with pTextFormat := outParam hr env.newTextFormat }
    { self := s, hr := hr, log := log }
  else
    { self := s, hr := hr, log := log }

/-- The member function `DrawHelper::CalculateLayout`. -/
def CalculateLayout (s : DrawHelper) (env : Platform) : Eff :=
  if s.pRenderTarget ≠ none then
    let size := env.rtSize
    let x := size.width / 2
    let y := size.height / 2
    let radius := minwindef_min x y
    { self := { s with ellipse := Ellipse { x := x, y := y } radius radius }
      log := [Call.GetSize s.pRenderTarget] }
  else
    { self := s, log := [] }

/-- The member function `DrawHelper::CreateGraphicsResources`. -/
def CreateGraphicsResources (s : DrawHelper) (env : Platform) (hwnd : Nat) : Ret :=
  if s.pRenderTarget = none then
    let r := CreateD3DResources s env hwnd
    if r.hr = S_OK then
      let r2 := CreateDWriteResources r.self env
      let log := r.log ++ r2.log
      if r2.hr = S_OK then
        let s := r2.self
        let log := log ++ [Call.CreateDxgiSurfaceRenderTarget s.pFactory s.pSurface]
        let hr := env.hrCreateRenderTarget
        let s := { s with pRenderTarget := outParam hr env.newRenderTarget }
        if hr = S_OK then
          let log := log ++ [Call.CreateSolidColorBrush s.pRenderTarget Color.green]
          let hr := env.hrCreateBrush
          let s := { s with pBrush := outParam hr env.newBrush }
          if SUCCEEDED hr then
            let log := log ++ [Call.CreateSolidColorBrush s.pRenderTarget Color.red]
            let hr := env.hrCreateBrushText
            let s := { s with pBrushText := outParam hr env.newBrushText }
            if SUCCEEDED hr then
              let l := CalculateLayout s env
              { self := l.self, hr := hr, log := log ++ l.log ++ [Call.Init l.self.pTex] }
            else
              { self := s, hr := hr, log := log }
          else
            { self := s, hr := hr, log := log }
        else
          { self := s, hr := hr, log := log }
      else
        { self := r2.self, hr := r2.hr, log := log }
    else
      r
  else
    { self := s, hr := S_OK, log := [] }

/-- The member function `DrawHelper::Save`. -/
def Save (pContext pTex : Handle) : List Call :=
  [Call.SaveWICTextureToFile pContext pTex]

/-- The member function `DrawHelper::Draw`. -/
def Draw (s : DrawHelper) (env : Platform) (hwnd : Nat) (pchTypeBuffer : List Nat)
    (cchTypeBuffer : Nat) : Eff :=
  let r := CreateGraphicsResources s env hwnd
  if SUCCEEDED r.hr then
    let s := r.self
    let renderTargetSize := env.rtSize
    let log := r.log ++ [
      Call.BeginDraw s.pRenderTarget,
      Call.Clear s.pRenderTarget Color.lightGray,
      Call.FillEllipse s.pRenderTarget s.ellipse s.pBrush,
      Call.GetSize s.pRenderTarget,
      Call.DrawText s.pRenderTarget pchTypeBuffer cchTypeBuffer s.pTextFormat
        (RectF 0 0 renderTargetSize.width renderTargetSize.height) s.pBrushText,
      Call.EndDraw s.pRenderTarget]
    let hr := env.hrEndDraw
    if hr = S_OK then
      let log := log ++ [Call.Present s.pSwapChain]
      let hr := env.hrPresent
      if hr = S_OK then
        if hr = S_OK then
          { self := s
            log := log ++ [Call.SetOverlayTexture s.pTex] ++ Save s.pDevice3dContext s.pTex }
        else
          { self := s, log := log }
      else
        { self := s, log := log }
    else
      let d := DiscardGraphicsResources s
      { self := d.self, log := log ++ d.log }
  else
    { self := r.self, log := r.log }

/-! ## Specification helpers -/

/-- The `Release` calls made for a list of pointers: one for each non-null
pointer, in the order of the list. -/
def releases (ps : List Handle) : List Call :=
  (ps.filterMap id).map Call.Release

/-- The ten render-target-scoped pointers, in the order
`DiscardGraphicsResources` goes through them. -/
def DrawHelper.targetScoped (s : DrawHelper) : List Handle :=
  [s.pRenderTarget, s.pRenderTargetBitmap, s.pRenderTargetHwnd, s.pBrush, s.pBrushText,
   s.pTex, s.pSurface, s.pSwapChain, s.pDWriteFactory, s.pTextFormat]

/-- The six device-scoped pointers, in the order `Shutdown` goes through them. -/
def DrawHelper.deviceScoped (s : DrawHelper) : List Handle :=
  [s.pFactory, s.pDevice2d, s.pDevice2dContext, s.pDevice3d, s.pDevice3dContext,
   s.pDxgiDevice]


/-- The nine steps of the resource-creation chain. -/
inductive Step where
  | deviceAndSwapChain
  | dxgiDevice
  | surfaceBuffer
  | textureBuffer
  | dwriteFactory
  | textFormat
  | renderTarget
  | ellipseBrush
  | textBrush
deriving DecidableEq

/-- The order the claim gives for the steps. -/
def Step.order : List Step :=
  [Step.deviceAndSwapChain, Step.dxgiDevice, Step.surfaceBuffer, Step.textureBuffer,
   Step.dwriteFactory, Step.textFormat, Step.renderTarget, Step.ellipseBrush, Step.textBrush]

/-- The place of a step in `Step.order`, counted from one. -/
def Step.rank : Step → Nat
  | Step.deviceAndSwapChain => 1
  | Step.dxgiDevice => 2
  | Step.surfaceBuffer => 3
  | Step.textureBuffer => 4
  | Step.dwriteFactory => 5
  | Step.textFormat => 6
  | Step.renderTarget => 7
  | Step.ellipseBrush => 8
  | Step.textBrush => 9

/-- The status code the platform answers to a step. -/
def Platform.hrOf (env : Platform) : Step → HRESULT
  | Step.deviceAndSwapChain => env.hrCreateDeviceAndSwapChain
  | Step.dxgiDevice => env.hrQueryInterface
  | Step.surfaceBuffer => env.hrGetBufferSurface
  | Step.textureBuffer => env.hrGetBufferTex
  | Step.dwriteFactory => env.hrDWriteCreateFactory
  | Step.textFormat => env.hrCreateTextFormat
  | Step.renderTarget => env.hrCreateRenderTarget
  | Step.ellipseBrush => env.hrCreateBrush
  | Step.textBrush => env.hrCreateBrushText

/-- The step a logged call is, if it is one. -/
def Call.step : Call → Option Step
  | Call.D3D11CreateDeviceAndSwapChain _ _ _ => some Step.deviceAndSwapChain
  | Call.QueryInterface _ => some Step.dxgiDevice
  | Call.GetBufferSurface _ => some Step.surfaceBuffer
  | Call.GetBufferTexture _ => some Step.textureBuffer
  | Call.DWriteCreateFactory => some Step.dwriteFactory
  | Call.CreateTextFormat _ => some Step.textFormat
  | Call.CreateDxgiSurfaceRenderTarget _ _ => some Step.renderTarget
  | Call.CreateSolidColorBrush _ Color.green => some Step.ellipseBrush
  | Call.CreateSolidColorBrush _ Color.red => some Step.textBrush
  | _ => none

/-- The steps of the creation chain that a log invokes, in the order of the log. -/
def stepsOf (log : List Call) : List Step :=
  log.filterMap Call.step

/-- The calls `Draw` makes after resource creation: the drawing batch, the
presentation, the hand-over to the VR bridge and the snapshot. -/
def Call.isFrame : Call → Bool
  | Call.BeginDraw _ => true
  | Call.Clear _ _ => true
  | Call.FillEllipse _ _ _ => true
  | Call.DrawText _ _ _ _ _ _ => true
  | Call.EndDraw _ => true
  | Call.Present _ => true
  | Call.SetOverlayTexture _ => true
  | Call.SaveWICTextureToFile _ _ => true
  | _ => false

/-- The calls of `CalculateLayout` and of the bridge set-up, which end a
completed creation chain. -/
def Call.isFinish : Call → Bool
  | Call.GetSize _ => true
  | Call.Init _ => true
  | _ => false

/-- The hand-over of a finished frame: presentation, the VR bridge, the snapshot. -/
def Call.isHandOver : Call → Bool
  | Call.Present _ => true
  | Call.SetOverlayTexture _ => true
  | Call.SaveWICTextureToFile _ _ => true
  | _ => false

/-- The two calls made only after a successful presentation. -/
def Call.isDelivery : Call → Bool
  | Call.SetOverlayTexture _ => true
  | Call.SaveWICTextureToFile _ _ => true
  | _ => false

/-- The set-up call of the VR bridge. -/
def Call.isInit : Call → Bool
  | Call.Init _ => true
  | _ => false

/-- The per-frame call of the VR bridge. -/
def Call.isSetOverlayTexture : Call → Bool
  | Call.SetOverlayTexture _ => true
  | _ => false

/-- A call of `IUnknown::Release`. -/
def Call.isRelease : Call → Bool
  | Call.Release _ => true
  | _ => false

/-- Resource creation runs to completion in this call: all nine steps are
invoked, in their order, and the last one succeeds. -/
def completesCreation (s : DrawHelper) (env : Platform) (hwnd : Nat) : Prop :=
  stepsOf (CreateGraphicsResources s env hwnd).log = Step.order ∧
    SUCCEEDED env.hrCreateBrushText

instance (s : DrawHelper) (env : Platform) (hwnd : Nat) :
    Decidable (completesCreation s env hwnd) := by
  unfold completesCreation
  infer_instance

/-- The call presents successfully: resource creation succeeds and `EndDraw`
and `Present` both answer `S_OK`. -/
def presents (s : DrawHelper) (env : Platform) (hwnd : Nat) : Prop :=
  SUCCEEDED (CreateGraphicsResources s env hwnd).hr ∧ env.hrEndDraw = S_OK ∧
    env.hrPresent = S_OK

instance (s : DrawHelper) (env : Platform) (hwnd : Nat) :
    Decidable (presents s env hwnd) := by
  unfold presents
  infer_instance

/-- The arguments of one `Draw` call together with what the platform answers
during it. -/
structure Frame where
  env : Platform
  hwnd : Nat
  pchTypeBuffer : List Nat
  cchTypeBuffer : Nat

/-- One `Draw` call of a sequence: the object before the call, the call, and
its result. -/
structure Entry where
  before : DrawHelper
  frame : Frame
  result : Eff

/-- A sequence of `Draw` calls on one object, each starting from the object the
previous one left. -/
def drawSeq (s : DrawHelper) : List Frame → List Entry
  | [] => []
  | f :: fs =>
    let r := Draw s f.env f.hwnd f.pchTypeBuffer f.cchTypeBuffer
    { before := s, frame := f, result := r } :: drawSeq r.self fs

/-- A platform on which every call answers `S_OK`, with an 800 by 600 client
area and render target. -/
def okPlatform : Platform :=
  { clientRight := 800, clientBottom := 600,
    hrCreateDeviceAndSwapChain := S_OK, newSwapChain := 2, newDevice3d := 3,
    newDevice3dContext := 4,
    hrQueryInterface := S_OK, newDxgiDevice := 5,
    hrGetBufferSurface := S_OK, newSurface := 6,
    hrGetBufferTex := S_OK, newTex := 7,
    hrDWriteCreateFactory := S_OK, newDWriteFactory := 8,
    hrCreateTextFormat := S_OK, newTextFormat := 9,
    hrCreateRenderTarget := S_OK, newRenderTarget := 10,
    hrCreateBrush := S_OK, newBrush := 11,
    hrCreateBrushText := S_OK, newBrushText := 12,
    rtSize := { width := 800, height := 600 },
    hrEndDraw := S_OK, hrPresent := S_OK }

/-- The code `E_FAIL`, 0x80004005. -/
def E_FAIL : HRESULT := -2147467259

/-- The code `E_OUTOFMEMORY`, 0x8007000E. -/
def E_OUTOFMEMORY : HRESULT := -2147024882

/-- The code `D2DERR_RECREATE_TARGET`, 0x8899000C. -/
def D2DERR_RECREATE_TARGET : HRESULT := -2003238900

/-- The code `DXGI_ERROR_DEVICE_REMOVED`, 0x887A0005. -/
def DXGI_ERROR_DEVICE_REMOVED : HRESULT := -2005270523

/-- A freshly constructed object after a successful `Setup`. -/
def freshHelper : DrawHelper :=
  (Setup (DrawHelper.ctor (Ellipse { x := 0, y := 0 } 0 0)) S_OK 1).self

/-- A frame on a platform, for window 1 and the text "Hi". -/
def frameOn (env : Platform) : Frame :=
  { env := env, hwnd := 1, pchTypeBuffer := [72, 105], cchTypeBuffer := 2 }

/-- The ellipse brush cannot be created: `E_OUTOFMEMORY`. -/
def brushFailPlatform : Platform :=
  { okPlatform with hrCreateBrush := E_OUTOFMEMORY }

/-- The render target cannot be created: `E_FAIL`. -/
def targetFailPlatform : Platform :=
  { okPlatform with hrCreateRenderTarget := E_FAIL }

/-- The swap chain cannot present: `DXGI_ERROR_DEVICE_REMOVED`. -/
def presentFailPlatform : Platform :=
  { okPlatform with hrPresent := DXGI_ERROR_DEVICE_REMOVED }

/-- The drawing batch fails: `EndDraw` answers `D2DERR_RECREATE_TARGET`. -/
def recreatePlatform : Platform :=
  { okPlatform with hrEndDraw := D2DERR_RECREATE_TARGET }

/-- Every call answers `S_OK` again, and the creation calls hand out new pointers. -/
def okPlatformAgain : Platform :=
  { okPlatform with
    newSwapChain := 22, newDevice3d := 23, newDevice3dContext := 24, newDxgiDevice := 25,
    newSurface := 26, newTex := 27, newDWriteFactory := 28, newTextFormat := 29,
    newRenderTarget := 30, newBrush := 31, newBrushText := 32 }

/-- The test the chain applies to the code a step answers before it goes on to
the next step: `SUCCEEDED` (lines 117, 163, 221, 224) or `== S_OK` (lines 121,
124, 190, 193, 209). -/
def Platform.passes (env : Platform) : Step → Prop
  | Step.deviceAndSwapChain => SUCCEEDED env.hrCreateDeviceAndSwapChain
  | Step.dxgiDevice => env.hrQueryInterface = S_OK
  | Step.surfaceBuffer => env.hrGetBufferSurface = S_OK
  | Step.textureBuffer => env.hrGetBufferTex = S_OK
  | Step.dwriteFactory => SUCCEEDED env.hrDWriteCreateFactory
  | Step.textFormat => env.hrCreateTextFormat = S_OK
  | Step.renderTarget => env.hrCreateRenderTarget = S_OK
  | Step.ellipseBrush => SUCCEEDED env.hrCreateBrush
  | Step.textBrush => SUCCEEDED env.hrCreateBrushText

instance (env : Platform) (k : Step) : Decidable (env.passes k) := by
  cases k <;> unfold Platform.passes <;> infer_instance

/-- The call reaches the `DiscardGraphicsResources` of line 288: resource
creation succeeds and `EndDraw` answers a code other than `S_OK`. -/
def Entry.discards (e : Entry) : Prop :=
  SUCCEEDED (CreateGraphicsResources e.before e.frame.env e.frame.hwnd).hr ∧
    e.frame.env.hrEndDraw ≠ S_OK

instance (e : Entry) : Decidable e.discards := by
  unfold Entry.discards
  infer_instance

/-- The call makes an `Init` call. -/
def Entry.callsInit (e : Entry) : Prop :=
  ∃ c ∈ e.result.log, c.isInit = true

/-- The number of `Init` calls of a call. -/
def Entry.initCount (e : Entry) : Nat :=
  (e.result.log.filter Call.isInit).length

/-- The text brush cannot be created: `E_OUTOFMEMORY`. -/
def textBrushFailPlatform : Platform :=
  { okPlatform with hrCreateBrushText := E_OUTOFMEMORY }

/-- The drawing batch of `Draw`, from `BeginDraw` to `EndDraw`, on an object. -/
def batch (s : DrawHelper) (env : Platform) (text : List Nat) (cch : Nat) : List Call :=
  [Call.BeginDraw s.pRenderTarget,
   Call.Clear s.pRenderTarget Color.lightGray,
   Call.FillEllipse s.pRenderTarget s.ellipse s.pBrush,
   Call.GetSize s.pRenderTarget,
   Call.DrawText s.pRenderTarget text cch s.pTextFormat
     (RectF 0 0 env.rtSize.width env.rtSize.height) s.pBrushText,
   Call.EndDraw s.pRenderTarget]

/-! ## Theorems -/

theorem SafeRelease_fst (p : Handle) : (SafeRelease p).1 = none := by
  cases p <;> rfl

theorem SafeRelease_snd (p : Handle) : (SafeRelease p).2 = releases [p] := by
  cases p <;> rfl

theorem releases_cons (p : Handle) (ps : List Handle) :
    releases (p :: ps) = releases [p] ++ releases ps := by
  cases p <;> simp [releases]

theorem DiscardGraphicsResources_self (s : DrawHelper) :
    (DiscardGraphicsResources s).self =
      { s with pRenderTarget := none, pRenderTargetBitmap := none, pRenderTargetHwnd := none,
               pBrush := none, pBrushText := none, pTex := none, pSurface := none,
               pSwapChain := none, pDWriteFactory := none, pTextFormat := none } := by
  simp [DiscardGraphicsResources, SafeRelease_fst]

theorem DiscardGraphicsResources_log (s : DrawHelper) :
    (DiscardGraphicsResources s).log = releases s.targetScoped := by
  simp only [DiscardGraphicsResources, SafeRelease_snd, DrawHelper.targetScoped]
  simp only [releases_cons _ (_ :: _), List.append_assoc]

theorem Shutdown_self (s : DrawHelper) :
    (Shutdown s).self =
      { s with pFactory := none, pDevice2d := none, pDevice2dContext := none,
               pRenderTarget := none, pRenderTargetBitmap := none, pRenderTargetHwnd := none,
               pBrush := none, pBrushText := none, pDevice3d := none,
               pDevice3dContext := none, pTex := none, pDxgiDevice := none,
               pSurface := none, pSwapChain := none, pDWriteFactory := none,
               pTextFormat := none } := by
  simp [Shutdown, SafeRelease_fst, DiscardGraphicsResources_self]

theorem Shutdown_log (s : DrawHelper) :
    (Shutdown s).log = releases s.targetScoped ++ releases s.deviceScoped := by
  simp only [Shutdown, SafeRelease_snd, DrawHelper.deviceScoped, DiscardGraphicsResources_log,
    DiscardGraphicsResources_self]
  simp only [releases_cons _ (_ :: _), List.append_assoc]

/-- With a render target the creation step does nothing and answers `S_OK`. -/
theorem CreateGraphicsResources_ready (s : DrawHelper) (env : Platform) (hwnd : Nat)
    (h : s.pRenderTarget ≠ none) :
    CreateGraphicsResources s env hwnd = Ret.mk s S_OK [] := by
  simp [CreateGraphicsResources, h]

/-- The creation chain written out path by path, when it starts without a
render target: either one of the nine steps answers a code that stops the chain
(the first nine cases, in the order of the steps), or every step lets the chain
go on and the layout and the bridge set-up follow (the last case). Each case
gives the object, the returned code and the log. -/
theorem CreateGraphicsResources_paths (s : DrawHelper) (env : Platform) (hwnd : Nat)
    (h : s.pRenderTarget = none) :
    (¬ SUCCEEDED env.hrCreateDeviceAndSwapChain ∧
      CreateGraphicsResources s env hwnd = Ret.mk
        { s with
            pSwapChain := outParam env.hrCreateDeviceAndSwapChain env.newSwapChain,
            pDevice3d := outParam env.hrCreateDeviceAndSwapChain env.newDevice3d,
            pDevice3dContext := outParam env.hrCreateDeviceAndSwapChain env.newDevice3dContext }
        env.hrCreateDeviceAndSwapChain
        [Call.GetClientRect hwnd,
         Call.D3D11CreateDeviceAndSwapChain hwnd env.clientRight env.clientBottom])
    ∨
    (SUCCEEDED env.hrCreateDeviceAndSwapChain ∧ ¬ env.hrQueryInterface = S_OK ∧
      CreateGraphicsResources s env hwnd = Ret.mk
        { s with
            pSwapChain := some env.newSwapChain,
            pDevice3d := some env.newDevice3d,
            pDevice3dContext := some env.newDevice3dContext,
            pDxgiDevice := outParam env.hrQueryInterface env.newDxgiDevice }
        env.hrQueryInterface
        [Call.GetClientRect hwnd,
         Call.D3D11CreateDeviceAndSwapChain hwnd env.clientRight env.clientBottom,
         Call.QueryInterface (some env.newDevice3d)])
    ∨
    (SUCCEEDED env.hrCreateDeviceAndSwapChain ∧ env.hrQueryInterface = S_OK ∧ ¬ env.hrGetBufferSurface = S_OK ∧
      CreateGraphicsResources s env hwnd = Ret.mk
        { s with
            pSwapChain := some env.newSwapChain,
            pDevice3d := some env.newDevice3d,
            pDevice3dContext := some env.newDevice3dContext,
            pDxgiDevice := some env.newDxgiDevice,
            pSurface := outParam env.hrGetBufferSurface env.newSurface }
        env.hrGetBufferSurface
        [Call.GetClientRect hwnd,
         Call.D3D11CreateDeviceAndSwapChain hwnd env.clientRight env.clientBottom,
         Call.QueryInterface (some env.newDevice3d),
         Call.GetBufferSurface (some env.newSwapChain)])
    ∨
    (SUCCEEDED env.hrCreateDeviceAndSwapChain ∧ env.hrQueryInterface = S_OK ∧ env.hrGetBufferSurface = S_OK ∧
      ¬ env.hrGetBufferTex = S_OK ∧
      CreateGraphicsResources s env hwnd = Ret.mk
        { s with
            pSwapChain := some env.newSwapChain,
            pDevice3d := some env.newDevice3d,
            pDevice3dContext := some env.newDevice3dContext,
            pDxgiDevice := some env.newDxgiDevice,
            pSurface := some env.newSurface,
            pTex := outParam env.hrGetBufferTex env.newTex }
        env.hrGetBufferTex
        [Call.GetClientRect hwnd,
         Call.D3D11CreateDeviceAndSwapChain hwnd env.clientRight env.clientBottom,
         Call.QueryInterface (some env.newDevice3d),
         Call.GetBufferSurface (some env.newSwapChain),
         Call.GetBufferTexture (some env.newSwapChain)])
    ∨
    (SUCCEEDED env.hrCreateDeviceAndSwapChain ∧ env.hrQueryInterface = S_OK ∧ env.hrGetBufferSurface = S_OK ∧
      env.hrGetBufferTex = S_OK ∧ ¬ SUCCEEDED env.hrDWriteCreateFactory ∧
      CreateGraphicsResources s env hwnd = Ret.mk
        { s with
            pSwapChain := some env.newSwapChain,
            pDevice3d := some env.newDevice3d,
            pDevice3dContext := some env.newDevice3dContext,
            pDxgiDevice := some env.newDxgiDevice,
            pSurface := some env.newSurface,
            pTex := some env.newTex,
            pDWriteFactory := outParam env.hrDWriteCreateFactory env.newDWriteFactory }
        env.hrDWriteCreateFactory
        [Call.GetClientRect hwnd,
         Call.D3D11CreateDeviceAndSwapChain hwnd env.clientRight env.clientBottom,
         Call.QueryInterface (some env.newDevice3d),
         Call.GetBufferSurface (some env.newSwapChain),
         Call.GetBufferTexture (some env.newSwapChain),
         Call.DWriteCreateFactory])
    ∨
    (SUCCEEDED env.hrCreateDeviceAndSwapChain ∧ env.hrQueryInterface = S_OK ∧ env.hrGetBufferSurface = S_OK ∧
      env.hrGetBufferTex = S_OK ∧ SUCCEEDED env.hrDWriteCreateFactory ∧ ¬ env.hrCreateTextFormat = S_OK ∧
      CreateGraphicsResources s env hwnd = Ret.mk
        { s with
            pSwapChain := some env.newSwapChain,
            pDevice3d := some env.newDevice3d,
            pDevice3dContext := some env.newDevice3dContext,
            pDxgiDevice := some env.newDxgiDevice,
            pSurface := some env.newSurface,
            pTex := some env.newTex,
            pDWriteFactory := some env.newDWriteFactory,
            pTextFormat := outParam env.hrCreateTextFormat env.newTextFormat }
        env.hrCreateTextFormat
        [Call.GetClientRect hwnd,
         Call.D3D11CreateDeviceAndSwapChain hwnd env.clientRight env.clientBottom,
         Call.QueryInterface (some env.newDevice3d),
         Call.GetBufferSurface (some env.newSwapChain),
         Call.GetBufferTexture (some env.newSwapChain),
         Call.DWriteCreateFactory,
         Call.CreateTextFormat (some env.newDWriteFactory)])
    ∨
    (SUCCEEDED env.hrCreateDeviceAndSwapChain ∧ env.hrQueryInterface = S_OK ∧ env.hrGetBufferSurface = S_OK ∧
      env.hrGetBufferTex = S_OK ∧ SUCCEEDED env.hrDWriteCreateFactory ∧ env.hrCreateTextFormat = S_OK ∧
      ¬ env.hrCreateRenderTarget = S_OK ∧
      CreateGraphicsResources s env hwnd = Ret.mk
        { s with
            pSwapChain := some env.newSwapChain,
            pDevice3d := some env.newDevice3d,
            pDevice3dContext := some env.newDevice3dContext,
            pDxgiDevice := some env.newDxgiDevice,
            pSurface := some env.newSurface,
            pTex := some env.newTex,
            pDWriteFactory := some env.newDWriteFactory,
            pTextFormat := some env.newTextFormat,
            pRenderTarget := outParam env.hrCreateRenderTarget env.newRenderTarget }
        env.hrCreateRenderTarget
        [Call.GetClientRect hwnd,
         Call.D3D11CreateDeviceAndSwapChain hwnd env.clientRight env.clientBottom,
         Call.QueryInterface (some env.newDevice3d),
         Call.GetBufferSurface (some env.newSwapChain),
         Call.GetBufferTexture (some env.newSwapChain),
         Call.DWriteCreateFactory,
         Call.CreateTextFormat (some env.newDWriteFactory),
         Call.CreateDxgiSurfaceRenderTarget s.pFactory (some env.newSurface)])
    ∨
    (SUCCEEDED env.hrCreateDeviceAndSwapChain ∧ env.hrQueryInterface = S_OK ∧ env.hrGetBufferSurface = S_OK ∧
      env.hrGetBufferTex = S_OK ∧ SUCCEEDED env.hrDWriteCreateFactory ∧ env.hrCreateTextFormat = S_OK ∧
      env.hrCreateRenderTarget = S_OK ∧ ¬ SUCCEEDED env.hrCreateBrush ∧
      CreateGraphicsResources s env hwnd = Ret.mk
        { s with
            pSwapChain := some env.newSwapChain,
            pDevice3d := some env.newDevice3d,
            pDevice3dContext := some env.newDevice3dContext,
            pDxgiDevice := some env.newDxgiDevice,
            pSurface := some env.newSurface,
            pTex := some env.newTex,
            pDWriteFactory := some env.newDWriteFactory,
            pTextFormat := some env.newTextFormat,
            pRenderTarget := some env.newRenderTarget,
            pBrush := outParam env.hrCreateBrush env.newBrush }
        env.hrCreateBrush
        [Call.GetClientRect hwnd,
         Call.D3D11CreateDeviceAndSwapChain hwnd env.clientRight env.clientBottom,
         Call.QueryInterface (some env.newDevice3d),
         Call.GetBufferSurface (some env.newSwapChain),
         Call.GetBufferTexture (some env.newSwapChain),
         Call.DWriteCreateFactory,
         Call.CreateTextFormat (some env.newDWriteFactory),
         Call.CreateDxgiSurfaceRenderTarget s.pFactory (some env.newSurface),
         Call.CreateSolidColorBrush (some env.newRenderTarget) Color.green])
    ∨
    (SUCCEEDED env.hrCreateDeviceAndSwapChain ∧ env.hrQueryInterface = S_OK ∧ env.hrGetBufferSurface = S_OK ∧
      env.hrGetBufferTex = S_OK ∧ SUCCEEDED env.hrDWriteCreateFactory ∧ env.hrCreateTextFormat = S_OK ∧
      env.hrCreateRenderTarget = S_OK ∧ SUCCEEDED env.hrCreateBrush ∧ ¬ SUCCEEDED env.hrCreateBrushText ∧
      CreateGraphicsResources s env hwnd = Ret.mk
        { s with
            pSwapChain := some env.newSwapChain,
            pDevice3d := some env.newDevice3d,
            pDevice3dContext := some env.newDevice3dContext,
            pDxgiDevice := some env.newDxgiDevice,
            pSurface := some env.newSurface,
            pTex := some env.newTex,
            pDWriteFactory := some env.newDWriteFactory,
            pTextFormat := some env.newTextFormat,
            pRenderTarget := some env.newRenderTarget,
            pBrush := some env.newBrush,
            pBrushText := outParam env.hrCreateBrushText env.newBrushText }
        env.hrCreateBrushText
        [Call.GetClientRect hwnd,
         Call.D3D11CreateDeviceAndSwapChain hwnd env.clientRight env.clientBottom,
         Call.QueryInterface (some env.newDevice3d),
         Call.GetBufferSurface (some env.newSwapChain),
         Call.GetBufferTexture (some env.newSwapChain),
         Call.DWriteCreateFactory,
         Call.CreateTextFormat (some env.newDWriteFactory),
         Call.CreateDxgiSurfaceRenderTarget s.pFactory (some env.newSurface),
         Call.CreateSolidColorBrush (some env.newRenderTarget) Color.green,
         Call.CreateSolidColorBrush (some env.newRenderTarget) Color.red])
    ∨
    (SUCCEEDED env.hrCreateDeviceAndSwapChain ∧ env.hrQueryInterface = S_OK ∧ env.hrGetBufferSurface = S_OK ∧
      env.hrGetBufferTex = S_OK ∧ SUCCEEDED env.hrDWriteCreateFactory ∧ env.hrCreateTextFormat = S_OK ∧
      env.hrCreateRenderTarget = S_OK ∧ SUCCEEDED env.hrCreateBrush ∧ SUCCEEDED env.hrCreateBrushText ∧
      CreateGraphicsResources s env hwnd = Ret.mk
        { s with
            pSwapChain := some env.newSwapChain,
            pDevice3d := some env.newDevice3d,
            pDevice3dContext := some env.newDevice3dContext,
            pDxgiDevice := some env.newDxgiDevice,
            pSurface := some env.newSurface,
            pTex := some env.newTex,
            pDWriteFactory := some env.newDWriteFactory,
            pTextFormat := some env.newTextFormat,
            pRenderTarget := some env.newRenderTarget,
            pBrush := some env.newBrush,
            pBrushText := some env.newBrushText,
            ellipse := Ellipse
              (D2D1_POINT_2F.mk (env.rtSize.width / 2) (env.rtSize.height / 2))
              (minwindef_min (env.rtSize.width / 2) (env.rtSize.height / 2))
              (minwindef_min (env.rtSize.width / 2) (env.rtSize.height / 2)) }
        env.hrCreateBrushText
        [Call.GetClientRect hwnd,
         Call.D3D11CreateDeviceAndSwapChain hwnd env.clientRight env.clientBottom,
         Call.QueryInterface (some env.newDevice3d),
         Call.GetBufferSurface (some env.newSwapChain),
         Call.GetBufferTexture (some env.newSwapChain),
         Call.DWriteCreateFactory,
         Call.CreateTextFormat (some env.newDWriteFactory),
         Call.CreateDxgiSurfaceRenderTarget s.pFactory (some env.newSurface),
         Call.CreateSolidColorBrush (some env.newRenderTarget) Color.green,
         Call.CreateSolidColorBrush (some env.newRenderTarget) Color.red,
         Call.GetSize (some env.newRenderTarget),
         Call.Init (some env.newTex)]) := by
  by_cases h1 : SUCCEEDED env.hrCreateDeviceAndSwapChain
  · by_cases h2 : env.hrQueryInterface = S_OK
    · by_cases h3 : env.hrGetBufferSurface = S_OK
      · by_cases h4 : env.hrGetBufferTex = S_OK
        · by_cases h5 : SUCCEEDED env.hrDWriteCreateFactory
          · by_cases h6 : env.hrCreateTextFormat = S_OK
            · by_cases h7 : env.hrCreateRenderTarget = S_OK
              · by_cases h8 : SUCCEEDED env.hrCreateBrush
                · by_cases h9 : SUCCEEDED env.hrCreateBrushText
                  · refine Or.inr (Or.inr (Or.inr (Or.inr (Or.inr (Or.inr (Or.inr (Or.inr (Or.inr (⟨h1, h2, h3, h4, h5, h6, h7, h8, h9, ?_⟩)))))))))
                    simp [CreateGraphicsResources, CreateD3DResources, CreateDWriteResources,
                      CalculateLayout, outParam, h, h1, h2, h3, h4, h5, h6, h7, h8, h9]
                  · have hn : ¬ env.hrCreateBrushText = S_OK := by
                      intro h0
                      exact h9 (show SUCCEEDED env.hrCreateBrushText from le_of_eq h0.symm)
                    refine Or.inr (Or.inr (Or.inr (Or.inr (Or.inr (Or.inr (Or.inr (Or.inr (Or.inl ⟨h1, h2, h3, h4, h5, h6, h7, h8, h9, ?_⟩))))))))
                    simp [CreateGraphicsResources, CreateD3DResources, CreateDWriteResources,
                      CalculateLayout, outParam, h, h1, h2, h3, h4, h5, h6, h7, h8, h9, hn]
                · have hn : ¬ env.hrCreateBrush = S_OK := by
                    intro h0
                    exact h8 (show SUCCEEDED env.hrCreateBrush from le_of_eq h0.symm)
                  refine Or.inr (Or.inr (Or.inr (Or.inr (Or.inr (Or.inr (Or.inr (Or.inl ⟨h1, h2, h3, h4, h5, h6, h7, h8, ?_⟩)))))))
                  simp [CreateGraphicsResources, CreateD3DResources, CreateDWriteResources,
                    CalculateLayout, outParam, h, h1, h2, h3, h4, h5, h6, h7, h8, hn]
              · refine Or.inr (Or.inr (Or.inr (Or.inr (Or.inr (Or.inr (Or.inl ⟨h1, h2, h3, h4, h5, h6, h7, ?_⟩))))))
                simp [CreateGraphicsResources, CreateD3DResources, CreateDWriteResources,
                  CalculateLayout, outParam, h, h1, h2, h3, h4, h5, h6, h7]
            · refine Or.inr (Or.inr (Or.inr (Or.inr (Or.inr (Or.inl ⟨h1, h2, h3, h4, h5, h6, ?_⟩)))))
              simp [CreateGraphicsResources, CreateD3DResources, CreateDWriteResources,
                CalculateLayout, outParam, h, h1, h2, h3, h4, h5, h6]
          · have hn : ¬ env.hrDWriteCreateFactory = S_OK := by
              intro h0
              exact h5 (show SUCCEEDED env.hrDWriteCreateFactory from le_of_eq h0.symm)
            refine Or.inr (Or.inr (Or.inr (Or.inr (Or.inl ⟨h1, h2, h3, h4, h5, ?_⟩))))
            simp [CreateGraphicsResources, CreateD3DResources, CreateDWriteResources,
              CalculateLayout, outParam, h, h1, h2, h3, h4, h5, hn]
        · refine Or.inr (Or.inr (Or.inr (Or.inl ⟨h1, h2, h3, h4, ?_⟩)))
          simp [CreateGraphicsResources, CreateD3DResources, CreateDWriteResources,
            CalculateLayout, outParam, h, h1, h2, h3, h4]
      · refine Or.inr (Or.inr (Or.inl ⟨h1, h2, h3, ?_⟩))
        simp [CreateGraphicsResources, CreateD3DResources, CreateDWriteResources,
          CalculateLayout, outParam, h, h1, h2, h3]
    · refine Or.inr (Or.inl ⟨h1, h2, ?_⟩)
      simp [CreateGraphicsResources, CreateD3DResources, CreateDWriteResources,
        CalculateLayout, outParam, h, h1, h2]
  · have hn : ¬ env.hrCreateDeviceAndSwapChain = S_OK := by
      intro h0
      exact h1 (show SUCCEEDED env.hrCreateDeviceAndSwapChain from le_of_eq h0.symm)
    refine Or.inl ⟨h1, ?_⟩
    simp [CreateGraphicsResources, CreateD3DResources, CreateDWriteResources,
      CalculateLayout, outParam, h, h1, hn]

/-- What every path of the creation chain has in common. -/
theorem CreateGraphicsResources_facts (s : DrawHelper) (env : Platform) (hwnd : Nat) :
    (∀ c ∈ (CreateGraphicsResources s env hwnd).log, c.isFrame = false)
    ∧ (∀ c ∈ (CreateGraphicsResources s env hwnd).log, c.isRelease = false)
    ∧ ((CreateGraphicsResources s env hwnd).hr = S_OK →
        (CreateGraphicsResources s env hwnd).self.pRenderTarget ≠ none)
    ∧ (s.pRenderTarget = none →
        (stepsOf (CreateGraphicsResources s env hwnd).log).head? = some Step.deviceAndSwapChain)
    ∧ (completesCreation s env hwnd →
        (CreateGraphicsResources s env hwnd).log.filter Call.isInit
            = [Call.Init (some env.newTex)]
        ∧ (CreateGraphicsResources s env hwnd).log.filter Call.isFinish
            = [Call.GetSize (some env.newRenderTarget), Call.Init (some env.newTex)]
        ∧ (CreateGraphicsResources s env hwnd).self.pTex = some env.newTex
        ∧ (CreateGraphicsResources s env hwnd).self.pRenderTarget = some env.newRenderTarget
        ∧ SUCCEEDED (CreateGraphicsResources s env hwnd).hr)
    ∧ (¬ completesCreation s env hwnd →
        ∀ c ∈ (CreateGraphicsResources s env hwnd).log, c.isInit = false) := by
  by_cases h : s.pRenderTarget = none
  · unfold completesCreation
    rcases CreateGraphicsResources_paths s env hwnd h with
      ⟨c1, hp⟩ | ⟨c1, c2, hp⟩ | ⟨c1, c2, c3, hp⟩ | ⟨c1, c2, c3, c4, hp⟩ |
      ⟨c1, c2, c3, c4, c5, hp⟩ | ⟨c1, c2, c3, c4, c5, c6, hp⟩ |
      ⟨c1, c2, c3, c4, c5, c6, c7, hp⟩ | ⟨c1, c2, c3, c4, c5, c6, c7, c8, hp⟩ |
      ⟨c1, c2, c3, c4, c5, c6, c7, c8, c9, hp⟩ | ⟨c1, c2, c3, c4, c5, c6, c7, c8, c9, hp⟩ <;>
    rw [hp] <;>
    simp [stepsOf, Call.step, Step.order, Call.isFinish, Call.isFrame, Call.isInit,
      Call.isRelease, h, *] <;>
    (intro h0; simp only [SUCCEEDED, S_OK] at *; linarith)
  · rw [CreateGraphicsResources_ready s env hwnd h]
    simp [completesCreation, CreateGraphicsResources_ready s env hwnd h, stepsOf, Step.order, h]


theorem Draw_of_failed (s : DrawHelper) (env : Platform) (hwnd : Nat)
    (text : List Nat) (cch : Nat) (h : ¬ SUCCEEDED (CreateGraphicsResources s env hwnd).hr) :
    Draw s env hwnd text cch =
      Eff.mk (CreateGraphicsResources s env hwnd).self
        (CreateGraphicsResources s env hwnd).log := by
  simp only [Draw, if_neg h]

theorem Draw_of_EndDraw_failed (s : DrawHelper) (env : Platform) (hwnd : Nat)
    (text : List Nat) (cch : Nat) (h : SUCCEEDED (CreateGraphicsResources s env hwnd).hr)
    (he : env.hrEndDraw ≠ S_OK) :
    Draw s env hwnd text cch =
      Eff.mk (DiscardGraphicsResources (CreateGraphicsResources s env hwnd).self).self
        ((CreateGraphicsResources s env hwnd).log
          ++ batch (CreateGraphicsResources s env hwnd).self env text cch
          ++ releases (CreateGraphicsResources s env hwnd).self.targetScoped) := by
  simp only [Draw, if_pos h, if_neg he, batch, DiscardGraphicsResources_log]

theorem Draw_of_Present_failed (s : DrawHelper) (env : Platform) (hwnd : Nat)
    (text : List Nat) (cch : Nat) (h : SUCCEEDED (CreateGraphicsResources s env hwnd).hr)
    (he : env.hrEndDraw = S_OK) (hp : env.hrPresent ≠ S_OK) :
    Draw s env hwnd text cch =
      Eff.mk (CreateGraphicsResources s env hwnd).self
        ((CreateGraphicsResources s env hwnd).log
          ++ batch (CreateGraphicsResources s env hwnd).self env text cch
          ++ [Call.Present (CreateGraphicsResources s env hwnd).self.pSwapChain]) := by
  simp only [Draw, if_pos h, if_pos he, if_neg hp, batch]

theorem Draw_of_presented (s : DrawHelper) (env : Platform) (hwnd : Nat)
    (text : List Nat) (cch : Nat) (h : SUCCEEDED (CreateGraphicsResources s env hwnd).hr)
    (he : env.hrEndDraw = S_OK) (hp : env.hrPresent = S_OK) :
    Draw s env hwnd text cch =
      Eff.mk (CreateGraphicsResources s env hwnd).self
        ((CreateGraphicsResources s env hwnd).log
          ++ batch (CreateGraphicsResources s env hwnd).self env text cch
          ++ [Call.Present (CreateGraphicsResources s env hwnd).self.pSwapChain,
              Call.SetOverlayTexture (CreateGraphicsResources s env hwnd).self.pTex,
              Call.SaveWICTextureToFile (CreateGraphicsResources s env hwnd).self.pDevice3dContext
                (CreateGraphicsResources s env hwnd).self.pTex]) := by
  simp only [Draw, if_pos h, if_pos he, if_pos hp, batch, Save, List.append_assoc,
    List.cons_append, List.nil_append]

theorem minwindef_min_eq_min (a b : ℚ) : minwindef_min a b = min a b := by
  unfold minwindef_min
  rcases lt_or_le a b with h | h
  · rw [if_pos h, min_eq_left h.le]
  · rw [if_neg (not_lt.mpr h), min_eq_right h]

theorem CalculateLayout_ellipse (s : DrawHelper) (env : Platform)
    (hrt : s.pRenderTarget ≠ none) :
    (CalculateLayout s env).self.ellipse =
      Ellipse { x := env.rtSize.width / 2, y := env.rtSize.height / 2 }
        (min (env.rtSize.width / 2) (env.rtSize.height / 2))
        (min (env.rtSize.width / 2) (env.rtSize.height / 2)) := by
  simp [CalculateLayout, hrt, minwindef_min_eq_min]

theorem isHandOver_of_not_frame (c : Call) (h : c.isFrame = false) :
    c.isHandOver = false := by
  cases c <;> first | rfl | exact h

theorem isDelivery_of_not_frame (c : Call) (h : c.isFrame = false) :
    c.isDelivery = false := by
  cases c <;> first | rfl | exact h

theorem isSetOverlayTexture_of_not_frame (c : Call) (h : c.isFrame = false) :
    c.isSetOverlayTexture = false := by
  cases c <;> first | rfl | exact h

theorem targetScoped_discard (s : DrawHelper) :
    (DiscardGraphicsResources s).self.targetScoped = List.replicate 10 none := by
  rw [DiscardGraphicsResources_self]; rfl

theorem filter_eq_nil_of_forall {p : Call → Bool} {l : List Call}
    (h : ∀ c ∈ l, p c = false) : l.filter p = [] := by
  rw [List.filter_eq_nil_iff]
  intro c hc
  rw [h c hc]
  exact Bool.false_ne_true

theorem releases_filter (p : Call → Bool) (hp : ∀ q, p (Call.Release q) = false)
    (ps : List Handle) : (releases ps).filter p = [] := by
  apply filter_eq_nil_of_forall
  intro c hc
  simp only [releases, List.mem_map] at hc
  obtain ⟨q, _, rfl⟩ := hc
  exact hp q

/-- The place `Step.rank` gives a step is its place in `Step.order`. -/
theorem Step.order_rank (k : Step) : Step.order.get? (k.rank - 1) = some k := by
  cases k <;> rfl

/-- The steps a `Draw` call invokes are those of its creation step. -/
theorem stepsOf_Draw (s : DrawHelper) (env : Platform) (hwnd : Nat) (text : List Nat)
    (cch : Nat) :
    stepsOf (Draw s env hwnd text cch).log
      = stepsOf (CreateGraphicsResources s env hwnd).log := by
  have hrel : ∀ ps : List Handle, stepsOf (releases ps) = [] := by
    intro ps
    simp only [stepsOf, List.filterMap_eq_nil_iff]
    intro c hc
    simp only [releases, List.mem_map] at hc
    obtain ⟨p, _, rfl⟩ := hc
    rfl
  by_cases h : SUCCEEDED (CreateGraphicsResources s env hwnd).hr
  · by_cases he : env.hrEndDraw = S_OK
    · by_cases hp : env.hrPresent = S_OK
      · rw [Draw_of_presented s env hwnd text cch h he hp]
        simp [stepsOf, batch, Call.step]
      · rw [Draw_of_Present_failed s env hwnd text cch h he hp]
        simp [stepsOf, batch, Call.step]
    · rw [Draw_of_EndDraw_failed s env hwnd text cch h he]
      have := hrel (CreateGraphicsResources s env hwnd).self.targetScoped
      simp only [stepsOf] at this
      simp [stepsOf, batch, Call.step, this]
  · rw [Draw_of_failed s env hwnd text cch h]

/-- The steps a creation call invokes are an initial part of the fixed order, and
a step that is invoked and fails ends the call. -/
theorem CreateGraphicsResources_steps (s : DrawHelper) (env : Platform) (hwnd : Nat) :
    (∃ n, stepsOf (CreateGraphicsResources s env hwnd).log = Step.order.take n)
    ∧ ∀ k, k ∈ stepsOf (CreateGraphicsResources s env hwnd).log → FAILED (env.hrOf k) →
        stepsOf (CreateGraphicsResources s env hwnd).log = Step.order.take k.rank
        ∧ (∀ c ∈ (CreateGraphicsResources s env hwnd).log, c.isFinish = false)
        ∧ (CreateGraphicsResources s env hwnd).self.ellipse = s.ellipse
        ∧ (CreateGraphicsResources s env hwnd).hr = env.hrOf k := by
  by_cases h : s.pRenderTarget = none
  · rcases CreateGraphicsResources_paths s env hwnd h with
      ⟨c1, hp⟩ | ⟨c1, c2, hp⟩ | ⟨c1, c2, c3, hp⟩ | ⟨c1, c2, c3, c4, hp⟩ |
      ⟨c1, c2, c3, c4, c5, hp⟩ | ⟨c1, c2, c3, c4, c5, c6, hp⟩ |
      ⟨c1, c2, c3, c4, c5, c6, c7, hp⟩ | ⟨c1, c2, c3, c4, c5, c6, c7, c8, hp⟩ |
      ⟨c1, c2, c3, c4, c5, c6, c7, c8, c9, hp⟩ | ⟨c1, c2, c3, c4, c5, c6, c7, c8, c9, hp⟩ <;>
    rw [hp] <;> refine ⟨?_, ?_⟩
    · exact ⟨1, rfl⟩
    rotate_left
    · exact ⟨2, rfl⟩
    rotate_left
    · exact ⟨3, rfl⟩
    rotate_left
    · exact ⟨4, rfl⟩
    rotate_left
    · exact ⟨5, rfl⟩
    rotate_left
    · exact ⟨6, rfl⟩
    rotate_left
    · exact ⟨7, rfl⟩
    rotate_left
    · exact ⟨8, rfl⟩
    rotate_left
    · exact ⟨9, rfl⟩
    rotate_left
    · exact ⟨9, rfl⟩
    all_goals
      intro k hk hf
      cases k <;>
      first
        | (exfalso; simp only [SUCCEEDED, S_OK, FAILED, Platform.hrOf] at *; linarith)
        | (exfalso; revert hk; simp [stepsOf, Call.step]; done)
        | simp [stepsOf, Call.step, Step.order, Step.rank, Call.isFinish, Platform.hrOf]
  · rw [CreateGraphicsResources_ready s env hwnd h]
    refine ⟨⟨0, rfl⟩, ?_⟩
    intro k hk
    simp [stepsOf] at hk


/-- The calls of a `Draw` call that satisfy a test which holds of no call of the
drawing batch and of no `Release`: they are those of the creation step, followed
by those of the hand-over when the call presents successfully. -/
theorem Draw_filter (p : Call → Bool) (s : DrawHelper) (env : Platform) (hwnd : Nat)
    (text : List Nat) (cch : Nat)
    (hb : ∀ c ∈ batch (CreateGraphicsResources s env hwnd).self env text cch, p c = false)
    (hr : ∀ q, p (Call.Release q) = false)
    (hpr : ∀ q, p (Call.Present q) = false) :
    (Draw s env hwnd text cch).log.filter p =
      (CreateGraphicsResources s env hwnd).log.filter p ++
        if presents s env hwnd then
          [Call.SetOverlayTexture (CreateGraphicsResources s env hwnd).self.pTex,
           Call.SaveWICTextureToFile (CreateGraphicsResources s env hwnd).self.pDevice3dContext
             (CreateGraphicsResources s env hwnd).self.pTex].filter p
        else [] := by
  have hbf := filter_eq_nil_of_forall hb
  by_cases h : SUCCEEDED (CreateGraphicsResources s env hwnd).hr
  · by_cases he : env.hrEndDraw = S_OK
    · by_cases hp : env.hrPresent = S_OK
      · rw [Draw_of_presented s env hwnd text cch h he hp, if_pos ⟨h, he, hp⟩]
        simp only [List.filter_append, hbf, List.append_nil, List.filter_cons, hpr]
        simp
      · rw [Draw_of_Present_failed s env hwnd text cch h he hp,
          if_neg (fun hh => hp hh.2.2)]
        simp [List.filter_append, hbf, hpr]
    · rw [Draw_of_EndDraw_failed s env hwnd text cch h he, if_neg (fun hh => he hh.2.1)]
      simp [List.filter_append, hbf, releases_filter p hr]
  · rw [Draw_of_failed s env hwnd text cch h, if_neg (fun hh => h hh.1)]
    simp


/-- Every entry of a sequence is the `Draw` call of its frame on the object
the entry starts from. -/
theorem drawSeq_result (s : DrawHelper) (fs : List Frame) :
    ∀ e ∈ drawSeq s fs,
      e.result = Draw e.before e.frame.env e.frame.hwnd e.frame.pchTypeBuffer
        e.frame.cchTypeBuffer := by
  induction fs generalizing s with
  | nil => intro e he; simp [drawSeq] at he
  | cons f fs ih =>
    intro e he
    simp only [drawSeq, List.mem_cons] at he
    rcases he with rfl | he
    · rfl
    · exact ih _ e he

set_option maxHeartbeats 4000000 in
/-- A step is invoked exactly when the object has no render target and every
step before it in the order passes. -/
theorem CreateGraphicsResources_invokes (s : DrawHelper) (env : Platform) (hwnd : Nat)
    (k : Step) :
    k ∈ stepsOf (CreateGraphicsResources s env hwnd).log ↔
      (s.pRenderTarget = none ∧ ∀ j ∈ Step.order.take (k.rank - 1), env.passes j) := by
  by_cases h : s.pRenderTarget = none
  · rcases CreateGraphicsResources_paths s env hwnd h with
      ⟨c1, hp⟩ | ⟨c1, c2, hp⟩ | ⟨c1, c2, c3, hp⟩ | ⟨c1, c2, c3, c4, hp⟩ |
      ⟨c1, c2, c3, c4, c5, hp⟩ | ⟨c1, c2, c3, c4, c5, c6, hp⟩ |
      ⟨c1, c2, c3, c4, c5, c6, c7, hp⟩ | ⟨c1, c2, c3, c4, c5, c6, c7, c8, hp⟩ |
      ⟨c1, c2, c3, c4, c5, c6, c7, c8, c9, hp⟩ | ⟨c1, c2, c3, c4, c5, c6, c7, c8, c9, hp⟩ <;>
    rw [hp] <;> cases k <;>
    simp [stepsOf, Call.step, Step.order, Step.rank, Platform.passes, h, *]
  · rw [CreateGraphicsResources_ready s env hwnd h]
    simp [stepsOf, h]

/-- When every step passes, the layout and the bridge set-up end the chain. -/
theorem CreateGraphicsResources_finish (s : DrawHelper) (env : Platform) (hwnd : Nat)
    (h : s.pRenderTarget = none) (hall : ∀ j ∈ Step.order, env.passes j) :
    stepsOf (CreateGraphicsResources s env hwnd).log = Step.order
    ∧ (CreateGraphicsResources s env hwnd).log.filter Call.isFinish
        = [Call.GetSize (some env.newRenderTarget), Call.Init (some env.newTex)] := by
  have hc : completesCreation s env hwnd := by
    refine ⟨?_, ?_⟩
    · simp only [Step.order, List.mem_cons, List.mem_singleton, List.not_mem_nil, or_false,
        forall_eq_or_imp, forall_eq, Platform.passes] at hall
      obtain ⟨c1, c2, c3, c4, c5, c6, c7, c8, c9⟩ := hall
      rcases CreateGraphicsResources_paths s env hwnd h with
        ⟨d1, hp⟩ | ⟨d1, d2, hp⟩ | ⟨d1, d2, d3, hp⟩ | ⟨d1, d2, d3, d4, hp⟩ |
        ⟨d1, d2, d3, d4, d5, hp⟩ | ⟨d1, d2, d3, d4, d5, d6, hp⟩ |
        ⟨d1, d2, d3, d4, d5, d6, d7, hp⟩ | ⟨d1, d2, d3, d4, d5, d6, d7, d8, hp⟩ |
        ⟨d1, d2, d3, d4, d5, d6, d7, d8, d9, hp⟩ | ⟨d1, d2, d3, d4, d5, d6, d7, d8, d9, hp⟩ <;>
      first
        | contradiction
        | (rw [hp]; rfl)
    · exact hall Step.textBrush (by simp [Step.order])
  exact ⟨hc.1, ((CreateGraphicsResources_facts s env hwnd).2.2.2.2.1 hc).2.1⟩

/-- The `Init` calls in the log of a `Draw` call. -/
theorem Draw_filter_isInit (s : DrawHelper) (env : Platform) (hwnd : Nat) (text : List Nat)
    (cch : Nat) :
    (Draw s env hwnd text cch).log.filter Call.isInit =
      (if completesCreation s env hwnd then [Call.Init (some env.newTex)] else []) := by
  have hf := CreateGraphicsResources_facts s env hwnd
  rw [Draw_filter Call.isInit s env hwnd text cch
    (by
      intro c hcm
      simp only [batch, List.mem_cons, List.mem_singleton, List.not_mem_nil, or_false] at hcm
      rcases hcm with rfl | rfl | rfl | rfl | rfl | rfl <;> rfl)
    (fun _ => rfl) (fun _ => rfl)]
  have hz : (if presents s env hwnd then
      [Call.SetOverlayTexture (CreateGraphicsResources s env hwnd).self.pTex,
        Call.SaveWICTextureToFile (CreateGraphicsResources s env hwnd).self.pDevice3dContext
          (CreateGraphicsResources s env hwnd).self.pTex].filter Call.isInit
      else []) = [] := by
    split_ifs <;> rfl
  rw [hz, List.append_nil]
  by_cases hcomp : completesCreation s env hwnd
  · rw [if_pos hcomp]
    exact (hf.2.2.2.2.1 hcomp).1
  · rw [if_neg hcomp]
    exact filter_eq_nil_of_forall (hf.2.2.2.2.2 hcomp)

/-- Resource creation cannot complete on an object that has a render target. -/
theorem not_completes_of_ready (s : DrawHelper) (env : Platform) (hwnd : Nat)
    (h : s.pRenderTarget ≠ none) : ¬ completesCreation s env hwnd := by
  intro hcomp
  have hlog := hcomp.1
  rw [CreateGraphicsResources_ready _ _ _ h] at hlog
  simp [stepsOf, Step.order] at hlog

/-- A `Draw` call that does not discard leaves the object as resource creation
left it. -/
theorem Draw_self_of_not_discards (s : DrawHelper) (env : Platform) (hwnd : Nat)
    (text : List Nat) (cch : Nat)
    (h : ¬ (SUCCEEDED (CreateGraphicsResources s env hwnd).hr ∧ env.hrEndDraw ≠ S_OK)) :
    (Draw s env hwnd text cch).self = (CreateGraphicsResources s env hwnd).self := by
  by_cases hs : SUCCEEDED (CreateGraphicsResources s env hwnd).hr
  · by_cases he : env.hrEndDraw = S_OK
    · by_cases hp : env.hrPresent = S_OK
      · rw [Draw_of_presented s env hwnd text cch hs he hp]
      · rw [Draw_of_Present_failed s env hwnd text cch hs he hp]
    · exact absurd ⟨hs, he⟩ h
  · rw [Draw_of_failed s env hwnd text cch hs]

/-- A `Draw` call that discards leaves the object without render target. -/
theorem Draw_self_of_discards (s : DrawHelper) (env : Platform) (hwnd : Nat)
    (text : List Nat) (cch : Nat)
    (h : SUCCEEDED (CreateGraphicsResources s env hwnd).hr ∧ env.hrEndDraw ≠ S_OK) :
    (Draw s env hwnd text cch).self.targetScoped = List.replicate 10 none := by
  rw [Draw_of_EndDraw_failed s env hwnd text cch h.1 h.2]
  exact targetScoped_discard _

/-- A `Draw` call that does not discard keeps a render target the object has,
and leaves one behind when it calls `Init`. -/
theorem Draw_keeps_target (s : DrawHelper) (env : Platform) (hwnd : Nat)
    (text : List Nat) (cch : Nat)
    (h : ¬ (SUCCEEDED (CreateGraphicsResources s env hwnd).hr ∧ env.hrEndDraw ≠ S_OK))
    (hr : s.pRenderTarget ≠ none ∨ completesCreation s env hwnd) :
    (Draw s env hwnd text cch).self.pRenderTarget ≠ none := by
  rw [Draw_self_of_not_discards s env hwnd text cch h]
  rcases hr with hr | hr
  · rw [CreateGraphicsResources_ready s env hwnd hr]
    exact hr
  · rw [((CreateGraphicsResources_facts s env hwnd).2.2.2.2.1 hr).2.2.2.1]
    exact Option.some_ne_none _

/-- A call of a sequence calls `Init` exactly when its resource creation runs to
completion. -/
theorem Entry.callsInit_iff (e : Entry)
    (he : e.result = Draw e.before e.frame.env e.frame.hwnd e.frame.pchTypeBuffer
      e.frame.cchTypeBuffer) :
    e.callsInit ↔ completesCreation e.before e.frame.env e.frame.hwnd := by
  unfold Entry.callsInit
  have hfil := Draw_filter_isInit e.before e.frame.env e.frame.hwnd e.frame.pchTypeBuffer
    e.frame.cchTypeBuffer
  rw [← he] at hfil
  constructor
  · rintro ⟨c, hc, hi⟩
    by_contra hn
    rw [if_neg hn] at hfil
    have : c ∈ e.result.log.filter Call.isInit := List.mem_filter.mpr ⟨hc, hi⟩
    rw [hfil] at this
    simp at this
  · intro hcomp
    rw [if_pos hcomp] at hfil
    have : Call.Init (some e.frame.env.newTex) ∈ e.result.log.filter Call.isInit := by
      rw [hfil]; simp
    exact ⟨_, (List.mem_filter.mp this).1, rfl⟩

/-- While no call discards, an object that has a render target keeps it. -/
theorem drawSeq_keeps_target (fs : List Frame) :
    ∀ (s : DrawHelper), s.pRenderTarget ≠ none →
    ∀ (j : Nat) (ej : Entry), (drawSeq s fs).get? j = some ej →
      (∀ m em, m < j → (drawSeq s fs).get? m = some em → ¬ em.discards) →
      ej.before.pRenderTarget ≠ none := by
  induction fs with
  | nil => intro s _ j ej hj; simp [drawSeq] at hj
  | cons f fs ih =>
    intro s hs j ej hj hno
    cases j with
    | zero =>
      simp only [drawSeq, List.get?_cons_zero, Option.some.injEq] at hj
      subst hj
      exact hs
    | succ j =>
      have h0 : ¬ (Entry.mk s f
          (Draw s f.env f.hwnd f.pchTypeBuffer f.cchTypeBuffer)).discards :=
        hno 0 _ (Nat.succ_pos j) (by simp [drawSeq])
      simp only [drawSeq, List.get?_cons_succ] at hj
      refine ih _ (Draw_keeps_target s f.env f.hwnd f.pchTypeBuffer f.cchTypeBuffer h0
        (Or.inl hs)) j ej hj ?_
      intro m em hm hem
      exact hno (m + 1) em (Nat.succ_lt_succ hm) (by simpa [drawSeq] using hem)

/-- Between two calls of a sequence that both call `Init`, a call discards. -/
theorem drawSeq_discard_between (fs : List Frame) :
    ∀ (s : DrawHelper) (i j : Nat) (ei ej : Entry), i < j →
      (drawSeq s fs).get? i = some ei → (drawSeq s fs).get? j = some ej →
      ei.callsInit → ej.callsInit →
      ∃ m em, i ≤ m ∧ m < j ∧ (drawSeq s fs).get? m = some em ∧ em.discards := by
  induction fs with
  | nil => intro s i j ei ej _ hi; simp [drawSeq] at hi
  | cons f fs ih =>
    intro s i j ei ej hij hi hj hci hcj
    cases j with
    | zero => exact absurd hij (Nat.not_lt_zero i)
    | succ j =>
      have hj2 : (drawSeq (Draw s f.env f.hwnd f.pchTypeBuffer f.cchTypeBuffer).self fs).get? j
          = some ej := by simpa [drawSeq] using hj
      cases i with
      | zero =>
        simp only [drawSeq, List.get?_cons_zero, Option.some.injEq] at hi
        by_contra hnone
        push_neg at hnone
        have h0 : ¬ ei.discards := hnone 0 ei (le_refl 0) (Nat.succ_pos j)
          (by simp [drawSeq, hi])
        subst hi
        have hcomp := (Entry.callsInit_iff _ rfl).mp hci
        have hkeep := Draw_keeps_target s f.env f.hwnd f.pchTypeBuffer f.cchTypeBuffer h0
          (Or.inr hcomp)
        have hbefore := drawSeq_keeps_target fs _ hkeep j ej hj2 (by
          intro m em hm hem
          exact hnone (m + 1) em (Nat.zero_le _) (Nat.succ_lt_succ hm)
            (by simpa [drawSeq] using hem))
        have hres := drawSeq_result _ fs ej (List.get?_mem hj2)
        exact not_completes_of_ready _ _ _ hbefore ((Entry.callsInit_iff ej hres).mp hcj)
      | succ i =>
        have hi2 : (drawSeq (Draw s f.env f.hwnd f.pchTypeBuffer f.cchTypeBuffer).self fs).get? i
            = some ei := by simpa [drawSeq] using hi
        obtain ⟨m, em, h1, h2, h3, h4⟩ :=
          ih _ i j ei ej (Nat.lt_of_succ_lt_succ hij) hi2 hj2 hci hcj
        exact ⟨m + 1, em, Nat.succ_le_succ h1, Nat.succ_lt_succ h2,
          by simpa [drawSeq] using h3, h4⟩

/-- Without a discard, an object that has a render target sees no `Init`. -/
theorem drawSeq_initCount_ready (fs : List Frame) :
    ∀ (s : DrawHelper), s.pRenderTarget ≠ none →
      (∀ e ∈ drawSeq s fs, ¬ e.discards) →
      ((drawSeq s fs).map Entry.initCount).sum = 0 := by
  induction fs with
  | nil => intro s _ _; rfl
  | cons f fs ih =>
    intro s hs hno
    have h0 : ¬ (Entry.mk s f (Draw s f.env f.hwnd f.pchTypeBuffer f.cchTypeBuffer)).discards :=
      hno _ (by simp [drawSeq])
    have hrest := ih _ (Draw_keeps_target s f.env f.hwnd f.pchTypeBuffer f.cchTypeBuffer h0
      (Or.inl hs)) (fun e he => hno e (by simp [drawSeq, he]))
    simp only [drawSeq, List.map_cons, List.sum_cons, hrest, Entry.initCount,
      Draw_filter_isInit, if_neg (not_completes_of_ready s f.env f.hwnd hs)]
    rfl

/-- Without a discard, `Init` is called at most once over a whole sequence. -/
theorem drawSeq_initCount_le_one (fs : List Frame) :
    ∀ (s : DrawHelper), (∀ e ∈ drawSeq s fs, ¬ e.discards) →
      ((drawSeq s fs).map Entry.initCount).sum ≤ 1 := by
  induction fs with
  | nil => intro s _; exact Nat.zero_le 1
  | cons f fs ih =>
    intro s hno
    have h0 : ¬ (Entry.mk s f (Draw s f.env f.hwnd f.pchTypeBuffer f.cchTypeBuffer)).discards :=
      hno _ (by simp [drawSeq])
    have hn : ∀ e ∈ drawSeq (Draw s f.env f.hwnd f.pchTypeBuffer f.cchTypeBuffer).self fs,
        ¬ e.discards := fun e he => hno e (by simp [drawSeq, he])
    simp only [drawSeq, List.map_cons, List.sum_cons, Entry.initCount, Draw_filter_isInit]
    by_cases hcomp : completesCreation s f.env f.hwnd
    · have hrest := drawSeq_initCount_ready fs _
        (Draw_keeps_target s f.env f.hwnd f.pchTypeBuffer f.cchTypeBuffer h0 (Or.inr hcomp)) hn
      rw [if_pos hcomp, hrest]
      rfl
    · rw [if_neg hcomp]
      simpa using ih _ hn

/-- The sequence threads the object: it has one entry per frame, the first
starts from the given object and every other from the object the call before
it left. -/
theorem drawSeq_threads (fs : List Frame) :
    ∀ (s : DrawHelper),
      (drawSeq s fs).map Entry.frame = fs
      ∧ (∀ a, (drawSeq s fs).get? 0 = some a → a.before = s)
      ∧ (∀ i a b, (drawSeq s fs).get? i = some a → (drawSeq s fs).get? (i + 1) = some b →
          b.before = a.result.self) := by
  induction fs with
  | nil => intro s; simp [drawSeq]
  | cons f fs ih =>
    intro s
    obtain ⟨t1, t2, t3⟩ := ih (Draw s f.env f.hwnd f.pchTypeBuffer f.cchTypeBuffer).self
    refine ⟨by simp [drawSeq, t1], ?_, ?_⟩
    · intro a ha
      simp only [drawSeq, List.get?_cons_zero, Option.some.injEq] at ha
      subst ha; rfl
    · intro i a b ha hb
      simp only [drawSeq, List.get?_cons_succ] at hb
      cases i with
      | zero =>
        simp only [drawSeq, List.get?_cons_zero, Option.some.injEq] at ha
        subst ha
        exact t2 b hb
      | succ i =>
        simp only [drawSeq, List.get?_cons_succ] at ha
        exact t3 i a b ha hb

/-- Resource creation runs to completion exactly when the object has no render
target and all nine steps pass. -/
theorem completesCreation_iff (s : DrawHelper) (env : Platform) (hwnd : Nat) :
    completesCreation s env hwnd ↔
      (s.pRenderTarget = none ∧ ∀ j ∈ Step.order, env.passes j) := by
  constructor
  · intro hcomp
    have hnone : s.pRenderTarget = none := by
      by_contra hne
      exact not_completes_of_ready s env hwnd hne hcomp
    refine ⟨hnone, ?_⟩
    have hmem : Step.textBrush ∈ stepsOf (CreateGraphicsResources s env hwnd).log := by
      rw [hcomp.1]; simp [Step.order]
    have hbefore := ((CreateGraphicsResources_invokes s env hwnd Step.textBrush).mp hmem).2
    intro j hj
    by_cases hlast : j = Step.textBrush
    · subst hlast
      exact hcomp.2
    · apply hbefore
      revert hj hlast
      cases j <;> simp [Step.order, Step.rank]
  · rintro ⟨hnone, hall⟩
    exact ⟨(CreateGraphicsResources_finish s env hwnd hnone hall).1,
      hall Step.textBrush (by simp [Step.order])⟩

/-! ## The claims -/

/-- C1: for every render-target size `(w, h)` with `w ≥ 1` and `h ≥ 1`,
`CalculateLayout` called while the render target exists sets the centre of the
ellipse to exactly `(w/2, h/2)` and both radii to `min (w/2) (h/2)`; the radius
is at most `min w h / 2` and the ellipse lies inside `[0, w] × [0, h]` on each
axis. For 800 by 600 the centre is `(400, 300)` and the radius 300. -/
theorem CalculateLayout_inscribed (s : DrawHelper) (env : Platform) (w h : ℚ)
    (hrt : s.pRenderTarget ≠ none) (hsize : env.rtSize = { width := w, height := h })
    (_hw : 1 ≤ w) (_hh : 1 ≤ h) :
    (CalculateLayout s env).self.ellipse.point = { x := w / 2, y := h / 2 }
    ∧ (CalculateLayout s env).self.ellipse.radiusX = min (w / 2) (h / 2)
    ∧ (CalculateLayout s env).self.ellipse.radiusY = min (w / 2) (h / 2)
    ∧ (CalculateLayout s env).self.ellipse.radiusX ≤ min w h / 2
    ∧ (CalculateLayout s env).self.ellipse.radiusY ≤ min w h / 2
    ∧ 0 ≤ (CalculateLayout s env).self.ellipse.point.x
          - (CalculateLayout s env).self.ellipse.radiusX
    ∧ (CalculateLayout s env).self.ellipse.point.x
          + (CalculateLayout s env).self.ellipse.radiusX ≤ w
    ∧ 0 ≤ (CalculateLayout s env).self.ellipse.point.y
          - (CalculateLayout s env).self.ellipse.radiusY
    ∧ (CalculateLayout s env).self.ellipse.point.y
          + (CalculateLayout s env).self.ellipse.radiusY ≤ h
    ∧ (w = 800 → h = 600 →
        (CalculateLayout s env).self.ellipse = Ellipse { x := 400, y := 300 } 300 300) := by
  rw [CalculateLayout_ellipse s env hrt, hsize]
  simp only [Ellipse]
  have e : min w h / 2 = min (w / 2) (h / 2) := by
    rcases le_total w h with hwh | hwh
    · rw [min_eq_left hwh, min_eq_left (by linarith)]
    · rw [min_eq_right hwh, min_eq_right (by linarith)]
  have l1 : min (w / 2) (h / 2) ≤ w / 2 := min_le_left _ _
  have l2 : min (w / 2) (h / 2) ≤ h / 2 := min_le_right _ _
  refine ⟨trivial, trivial, trivial, e.ge, e.ge, by linarith, by linarith, by linarith,
    by linarith, ?_⟩
  intro h1 h2
  subst h1 h2
  norm_num

/-- C1 at 800 by 600, on an object that has a render target. -/
theorem CalculateLayout_inscribed_witness :
    ({ freshHelper with pRenderTarget := some 10 } : DrawHelper).pRenderTarget ≠ none
    ∧ (1 : ℚ) ≤ 800 ∧ (1 : ℚ) ≤ 600
    ∧ (CalculateLayout { freshHelper with pRenderTarget := some 10 } okPlatform).self.ellipse
        = Ellipse { x := 400, y := 300 } 300 300 :=
  ⟨by simp, by norm_num, by norm_num,
    (CalculateLayout_inscribed { freshHelper with pRenderTarget := some 10 } okPlatform 800 600
      (by simp) rfl (by norm_num) (by norm_num)).2.2.2.2.2.2.2.2.2 rfl rfl⟩

/-- C2, at the failing input: on a fresh object the first `Draw` call cannot
create the ellipse brush, the second call runs on a platform where everything
succeeds. The first call leaves the render target in place and discards
nothing, so the second call creates nothing and fills the ellipse with a null
brush, draws the text with a null brush and uses the ellipse no layout ever
computed. -/
theorem Draw_after_brush_failure_uses_null_brush :
    (drawSeq freshHelper [frameOn brushFailPlatform, frameOn okPlatform]).map
        (fun e => e.result.log)
      = [[Call.GetClientRect 1,
          Call.D3D11CreateDeviceAndSwapChain 1 800 600,
          Call.QueryInterface (some 3),
          Call.GetBufferSurface (some 2),
          Call.GetBufferTexture (some 2),
          Call.DWriteCreateFactory,
          Call.CreateTextFormat (some 8),
          Call.CreateDxgiSurfaceRenderTarget (some 1) (some 6),
          Call.CreateSolidColorBrush (some 10) Color.green],
         [Call.BeginDraw (some 10),
          Call.Clear (some 10) Color.lightGray,
          Call.FillEllipse (some 10) (Ellipse { x := 0, y := 0 } 0 0) none,
          Call.GetSize (some 10),
          Call.DrawText (some 10) [72, 105] 2 (some 9) (RectF 0 0 800 600) none,
          Call.EndDraw (some 10),
          Call.Present (some 2),
          Call.SetOverlayTexture (some 7),
          Call.SaveWICTextureToFile (some 4) (some 7)]] := by
  rfl

/-- C3, at the failing input: on a fresh object the render target cannot be
created. When `Draw` returns, the texture, the surface, the swap chain, the
DirectWrite factory and the text format are still held, and nothing was
released. -/
theorem Draw_creation_failure_keeps_resources :
    (Draw freshHelper targetFailPlatform 1 [72, 105] 2).self.targetScoped
      = [none, none, none, none, none, some 7, some 6, some 2, some 8, some 9]
    ∧ (Draw freshHelper targetFailPlatform 1 [72, 105] 2).log.filter Call.isRelease = [] := by
  constructor <;> rfl

/-- C4, at the failing input: on a fresh object the first `Draw` call creates
everything and draws, and `Present` fails; the second call runs on a platform
where everything succeeds. After the first call the render target, the brushes,
the texture, the surface, the swap chain, the DirectWrite factory and the text
format are still held and nothing was released; the second call invokes no step
of the creation chain. -/
theorem Draw_Present_failure_keeps_resources :
    (drawSeq freshHelper [frameOn presentFailPlatform, frameOn okPlatformAgain]).map
        (fun e => (e.result.self.targetScoped, e.result.log.filter Call.isRelease,
          stepsOf e.result.log))
      = [([some 10, none, none, some 11, some 12, some 7, some 6, some 2, some 8, some 9], [],
            Step.order),
         ([some 10, none, none, some 11, some 12, some 7, some 6, some 2, some 8, some 9], [],
            [])] := by
  rfl

/-- C5: if creation succeeds and `EndDraw` answers a code other than `S_OK`,
`Draw` calls neither `Present` nor `SetOverlayTexture` nor `Save`; when it
returns the ten render-target-scoped pointers are null; and the next `Draw`
call, whatever the platform answers, starts the creation chain again with its
first step. -/
theorem Draw_EndDraw_failure_resets (s : DrawHelper) (env : Platform) (hwnd : Nat)
    (text : List Nat) (cch : Nat)
    (hc : SUCCEEDED (CreateGraphicsResources s env hwnd).hr)
    (he : env.hrEndDraw ≠ S_OK) :
    (∀ c ∈ (Draw s env hwnd text cch).log, c.isHandOver = false)
    ∧ (Draw s env hwnd text cch).self.targetScoped = List.replicate 10 none
    ∧ ∀ (env2 : Platform) (hwnd2 : Nat) (text2 : List Nat) (cch2 : Nat),
        (stepsOf (Draw (Draw s env hwnd text cch).self env2 hwnd2 text2 cch2).log).head?
          = some Step.deviceAndSwapChain := by
  have hd := Draw_of_EndDraw_failed s env hwnd text cch hc he
  have hf := CreateGraphicsResources_facts s env hwnd
  refine ⟨?_, ?_, ?_⟩
  · rw [hd]
    intro c hcm
    simp only [List.mem_append] at hcm
    rcases hcm with (hcm | hcm) | hcm
    · exact isHandOver_of_not_frame c (hf.1 c hcm)
    · simp only [batch, List.mem_cons, List.mem_singleton, List.not_mem_nil, or_false] at hcm
      rcases hcm with rfl | rfl | rfl | rfl | rfl | rfl <;> rfl
    · simp only [releases, List.mem_map] at hcm
      obtain ⟨p, _, rfl⟩ := hcm
      rfl
  · rw [hd]
    exact targetScoped_discard _
  · intro env2 hwnd2 text2 cch2
    rw [stepsOf_Draw]
    refine (CreateGraphicsResources_facts _ env2 hwnd2).2.2.2.1 ?_
    rw [hd, DiscardGraphicsResources_self]

/-- C5 on a fresh object whose `EndDraw` answers `D2DERR_RECREATE_TARGET`. -/
theorem Draw_EndDraw_failure_resets_witness :
    SUCCEEDED (CreateGraphicsResources freshHelper recreatePlatform 1).hr
    ∧ recreatePlatform.hrEndDraw ≠ S_OK
    ∧ (Draw freshHelper recreatePlatform 1 [72, 105] 2).self.targetScoped
        = List.replicate 10 none :=
  ⟨by decide, by decide,
    (Draw_EndDraw_failure_resets freshHelper recreatePlatform 1 [72, 105] 2
      (by decide) (by decide)).2.1⟩

/-- C6: if a call of `CreateGraphicsResources` has succeeded (it answered `S_OK`,
or it ran the chain to completion) and nothing was discarded since, a second
call, whatever the platform would answer, makes no call at all (no creation
function, no `GetSize` of a layout, no `Init`), leaves the object (every pointer
and the ellipse) as it is and answers `S_OK`. -/
theorem CreateGraphicsResources_idempotent (s : DrawHelper) (env : Platform) (hwnd : Nat)
    (h : (CreateGraphicsResources s env hwnd).hr = S_OK ∨ completesCreation s env hwnd)
    (env2 : Platform) (hwnd2 : Nat) :
    (CreateGraphicsResources (CreateGraphicsResources s env hwnd).self env2 hwnd2).log = []
    ∧ (CreateGraphicsResources (CreateGraphicsResources s env hwnd).self env2 hwnd2).self
        = (CreateGraphicsResources s env hwnd).self
    ∧ (CreateGraphicsResources (CreateGraphicsResources s env hwnd).self env2 hwnd2).hr
        = S_OK := by
  have hrt : (CreateGraphicsResources s env hwnd).self.pRenderTarget ≠ none := by
    rcases h with h | h
    · exact (CreateGraphicsResources_facts s env hwnd).2.2.1 h
    · rw [((CreateGraphicsResources_facts s env hwnd).2.2.2.2.1 h).2.2.2.1]
      exact Option.some_ne_none _
  rw [CreateGraphicsResources_ready _ env2 hwnd2 hrt]
  exact ⟨rfl, rfl, rfl⟩

/-- C6 on a fresh object: after a first creation on a platform where everything
succeeds, a second call is a no-op even on a platform that would fail. -/
theorem CreateGraphicsResources_idempotent_witness :
    (CreateGraphicsResources freshHelper okPlatform 1).hr = S_OK
    ∧ (CreateGraphicsResources (CreateGraphicsResources freshHelper okPlatform 1).self
          targetFailPlatform 1).log = [] :=
  ⟨rfl, (CreateGraphicsResources_idempotent freshHelper okPlatform 1 (Or.inl rfl)
    targetFailPlatform 1).1⟩

/-- C7: the steps of `CreateGraphicsResources` run in the fixed order device and
swap chain, DXGI device, surface buffer, texture buffer, DirectWrite factory,
text format, render target, ellipse brush, text brush: the steps a call invokes
are an initial part of that order, a step is invoked exactly when the object has
no render target and every step before it answered a code that passes the test
of the chain, and when all nine pass the layout (`GetSize`) and `Init` follow.
A failure code passes no test. If a step that is invoked answers a failure
code, the steps invoked are exactly those up to it (no later step), neither
`CalculateLayout` (no `GetSize`, the ellipse is unchanged) nor `Init` follows,
the function returns exactly that code, and `Draw` makes no further call: no
`BeginDraw`, `Present`, `SetOverlayTexture` or `Save`. -/
theorem creation_chain_order_and_abort (s : DrawHelper) (env : Platform) (hwnd : Nat)
    (text : List Nat) (cch : Nat) :
    (∃ n, stepsOf (CreateGraphicsResources s env hwnd).log = Step.order.take n)
    ∧ (∀ k, k ∈ stepsOf (CreateGraphicsResources s env hwnd).log ↔
        (s.pRenderTarget = none ∧ ∀ j ∈ Step.order.take (k.rank - 1), env.passes j))
    ∧ (s.pRenderTarget = none → (∀ j ∈ Step.order, env.passes j) →
        stepsOf (CreateGraphicsResources s env hwnd).log = Step.order
        ∧ (CreateGraphicsResources s env hwnd).log.filter Call.isFinish
            = [Call.GetSize (some env.newRenderTarget), Call.Init (some env.newTex)])
    ∧ (∀ k, FAILED (env.hrOf k) → ¬ env.passes k)
    ∧ ∀ k, k ∈ stepsOf (CreateGraphicsResources s env hwnd).log → FAILED (env.hrOf k) →
        stepsOf (CreateGraphicsResources s env hwnd).log = Step.order.take k.rank
        ∧ (∀ c ∈ (CreateGraphicsResources s env hwnd).log, c.isFinish = false)
        ∧ (CreateGraphicsResources s env hwnd).self.ellipse = s.ellipse
        ∧ (CreateGraphicsResources s env hwnd).hr = env.hrOf k
        ∧ (Draw s env hwnd text cch).log = (CreateGraphicsResources s env hwnd).log
        ∧ (∀ c ∈ (Draw s env hwnd text cch).log, c.isFrame = false) := by
  obtain ⟨h1, h2⟩ := CreateGraphicsResources_steps s env hwnd
  refine ⟨h1, CreateGraphicsResources_invokes s env hwnd,
    CreateGraphicsResources_finish s env hwnd, ?_, ?_⟩
  · intro k hf hp
    cases k <;> simp only [Platform.hrOf, Platform.passes, FAILED, SUCCEEDED, S_OK] at hf hp <;>
      linarith
  · intro k hk hf
    obtain ⟨k1, k2, k3, k4⟩ := h2 k hk hf
    have hneg : ¬ SUCCEEDED (CreateGraphicsResources s env hwnd).hr := by
      rw [k4]; exact not_le.mpr hf
    rw [Draw_of_failed s env hwnd text cch hneg]
    exact ⟨k1, k2, k3, k4, rfl, (CreateGraphicsResources_facts s env hwnd).1⟩

/-- C7 on a fresh object when the text brush, the last step, cannot be created:
the eight steps before it pass, so it is invoked; all nine steps run, in the
order of the claim, the code of the text brush is returned and `Draw` stops. -/
theorem creation_chain_order_and_abort_witness :
    freshHelper.pRenderTarget = none
    ∧ (∀ j ∈ Step.order.take 8, textBrushFailPlatform.passes j)
    ∧ FAILED (textBrushFailPlatform.hrOf Step.textBrush)
    ∧ stepsOf (CreateGraphicsResources freshHelper textBrushFailPlatform 1).log
        = [Step.deviceAndSwapChain, Step.dxgiDevice, Step.surfaceBuffer, Step.textureBuffer,
           Step.dwriteFactory, Step.textFormat, Step.renderTarget, Step.ellipseBrush,
           Step.textBrush]
    ∧ (CreateGraphicsResources freshHelper textBrushFailPlatform 1).hr = E_OUTOFMEMORY
    ∧ (Draw freshHelper textBrushFailPlatform 1 [72, 105] 2).log
        = (CreateGraphicsResources freshHelper textBrushFailPlatform 1).log :=
  have hm : Step.textBrush ∈
      stepsOf (CreateGraphicsResources freshHelper textBrushFailPlatform 1).log :=
    ((creation_chain_order_and_abort freshHelper textBrushFailPlatform 1 [72, 105] 2).2.1
      Step.textBrush).mpr ⟨rfl, by decide⟩
  ⟨rfl, by decide, by decide,
    ((creation_chain_order_and_abort freshHelper textBrushFailPlatform 1 [72, 105] 2).2.2.2.2
      Step.textBrush hm (by decide)).1,
    ((creation_chain_order_and_abort freshHelper textBrushFailPlatform 1 [72, 105] 2).2.2.2.2
      Step.textBrush hm (by decide)).2.2.2.1,
    ((creation_chain_order_and_abort freshHelper textBrushFailPlatform 1 [72, 105] 2).2.2.2.2
      Step.textBrush hm (by decide)).2.2.2.2.1⟩

/-- C8: in a `Draw` call in which resource creation succeeds and `EndDraw` and
`Present` both answer `S_OK`, the calls of the frame are made exactly once each
and in this order: `BeginDraw`, `Clear`, `FillEllipse` with the current ellipse,
`DrawText` with the given text over the full render-target rectangle,
`EndDraw`, `Present`, `SetOverlayTexture` on the shared texture, `Save` of the
shared texture. `SetOverlayTexture` and `Save` are made only in such a call. -/
theorem Draw_presented_frame (s : DrawHelper) (env : Platform) (hwnd : Nat)
    (text : List Nat) (cch : Nat) :
    (SUCCEEDED (CreateGraphicsResources s env hwnd).hr → env.hrEndDraw = S_OK →
      env.hrPresent = S_OK →
        (Draw s env hwnd text cch).log.filter Call.isFrame =
          [Call.BeginDraw (CreateGraphicsResources s env hwnd).self.pRenderTarget,
           Call.Clear (CreateGraphicsResources s env hwnd).self.pRenderTarget Color.lightGray,
           Call.FillEllipse (CreateGraphicsResources s env hwnd).self.pRenderTarget
             (CreateGraphicsResources s env hwnd).self.ellipse
             (CreateGraphicsResources s env hwnd).self.pBrush,
           Call.DrawText (CreateGraphicsResources s env hwnd).self.pRenderTarget text cch
             (CreateGraphicsResources s env hwnd).self.pTextFormat
             (RectF 0 0 env.rtSize.width env.rtSize.height)
             (CreateGraphicsResources s env hwnd).self.pBrushText,
           Call.EndDraw (CreateGraphicsResources s env hwnd).self.pRenderTarget,
           Call.Present (CreateGraphicsResources s env hwnd).self.pSwapChain,
           Call.SetOverlayTexture (CreateGraphicsResources s env hwnd).self.pTex,
           Call.SaveWICTextureToFile (CreateGraphicsResources s env hwnd).self.pDevice3dContext
             (CreateGraphicsResources s env hwnd).self.pTex])
    ∧ ((∃ c ∈ (Draw s env hwnd text cch).log, c.isDelivery = true) →
        SUCCEEDED (CreateGraphicsResources s env hwnd).hr ∧ env.hrEndDraw = S_OK
          ∧ env.hrPresent = S_OK) := by
  have hf := (CreateGraphicsResources_facts s env hwnd).1
  constructor
  · intro h he hp
    rw [Draw_of_presented s env hwnd text cch h he hp]
    simp only [List.filter_append, filter_eq_nil_of_forall hf, List.nil_append]
    rfl
  · rintro ⟨c, hc, hdel⟩
    by_contra hnot
    have hfil := Draw_filter Call.isDelivery s env hwnd text cch
      (by
        intro c hcm
        simp only [batch, List.mem_cons, List.mem_singleton, List.not_mem_nil, or_false] at hcm
        rcases hcm with rfl | rfl | rfl | rfl | rfl | rfl <;> rfl)
      (fun _ => rfl) (fun _ => rfl)
    rw [if_neg (show ¬ presents s env hwnd from hnot),
      filter_eq_nil_of_forall (fun c hc => isDelivery_of_not_frame c (hf c hc))] at hfil
    have hmem : c ∈ (Draw s env hwnd text cch).log.filter Call.isDelivery :=
      List.mem_filter.mpr ⟨hc, hdel⟩
    rw [hfil] at hmem
    simp at hmem

/-- C8 on a fresh object and a platform where everything succeeds. -/
theorem Draw_presented_frame_witness :
    SUCCEEDED (CreateGraphicsResources freshHelper okPlatform 1).hr
    ∧ okPlatform.hrEndDraw = S_OK ∧ okPlatform.hrPresent = S_OK
    ∧ (Draw freshHelper okPlatform 1 [72, 105] 2).log.filter Call.isFrame =
        [Call.BeginDraw (some 10),
         Call.Clear (some 10) Color.lightGray,
         Call.FillEllipse (some 10)
           (CreateGraphicsResources freshHelper okPlatform 1).self.ellipse (some 11),
         Call.DrawText (some 10) [72, 105] 2 (some 9) (RectF 0 0 800 600) (some 12),
         Call.EndDraw (some 10),
         Call.Present (some 2),
         Call.SetOverlayTexture (some 7),
         Call.SaveWICTextureToFile (some 4) (some 7)] :=
  ⟨by decide, rfl, rfl,
    (Draw_presented_frame freshHelper okPlatform 1 [72, 105] 2).1 (by decide) rfl rfl⟩

/-- C9 as stated fails: on a fresh object the first `Draw` call completes
resource creation and calls `Init`, its `EndDraw` answers
`D2DERR_RECREATE_TARGET` and the resources are discarded; the second call
creates them again and calls `Init` a second time, with the new texture. -/
theorem Init_called_again_after_discard :
    (drawSeq freshHelper [frameOn recreatePlatform, frameOn okPlatformAgain]).map
        (fun e => e.result.log.filter Call.isInit)
      = [[Call.Init (some 7)], [Call.Init (some 27)]] := by
  rfl

/-- C9, amended: over any sequence of `Draw` calls on one object (each call
starting from the object the call before it left), `Init` is called once per
completed resource creation. A call in which resource creation runs to
completion, which happens exactly when the object is without render target
and all nine steps pass, calls `Init` exactly once, on the shared texture this creation obtained and right after the
`GetSize` of the layout; a call in which creation does not run to completion
calls no `Init`. Between two calls of the sequence that both call `Init` there
is a call that discarded the resources (its `EndDraw` failed), so that in a
sequence without discard `Init` is called at most once in all.
`SetOverlayTexture` is called exactly once, on the shared texture, in every
call that presents successfully, and in no other. -/
theorem Init_once_per_completed_creation (s : DrawHelper) (fs : List Frame) :
    ((drawSeq s fs).map Entry.frame = fs
      ∧ (∀ a, (drawSeq s fs).get? 0 = some a → a.before = s)
      ∧ (∀ i a b, (drawSeq s fs).get? i = some a → (drawSeq s fs).get? (i + 1) = some b →
          b.before = a.result.self))
    ∧ (∀ e ∈ drawSeq s fs,
        e.result.log.filter Call.isInit =
          (if completesCreation e.before e.frame.env e.frame.hwnd
            then [Call.Init (some e.frame.env.newTex)] else [])
        ∧ (completesCreation e.before e.frame.env e.frame.hwnd ↔
            (e.before.pRenderTarget = none ∧ ∀ j ∈ Step.order, e.frame.env.passes j))
        ∧ (completesCreation e.before e.frame.env e.frame.hwnd →
            e.before.pRenderTarget = none
            ∧ (CreateGraphicsResources e.before e.frame.env e.frame.hwnd).log.filter
                Call.isFinish
              = [Call.GetSize (some e.frame.env.newRenderTarget),
                 Call.Init (some e.frame.env.newTex)]
            ∧ (CreateGraphicsResources e.before e.frame.env e.frame.hwnd).self.pTex
              = some e.frame.env.newTex)
        ∧ e.result.log.filter Call.isSetOverlayTexture =
          (if presents e.before e.frame.env e.frame.hwnd
            then [Call.SetOverlayTexture
              (CreateGraphicsResources e.before e.frame.env e.frame.hwnd).self.pTex]
            else [])
        ∧ (e.discards → e.result.self.targetScoped = List.replicate 10 none)
        ∧ (¬ e.discards →
            e.result.self = (CreateGraphicsResources e.before e.frame.env e.frame.hwnd).self))
    ∧ (∀ (i j : Nat) (ei ej : Entry), i < j →
        (drawSeq s fs).get? i = some ei → (drawSeq s fs).get? j = some ej →
        ei.callsInit → ej.callsInit →
        ∃ m em, i ≤ m ∧ m < j ∧ (drawSeq s fs).get? m = some em ∧ em.discards)
    ∧ ((∀ e ∈ drawSeq s fs, ¬ e.discards) →
        ((drawSeq s fs).map Entry.initCount).sum ≤ 1) := by
  refine ⟨drawSeq_threads fs s, ?_, drawSeq_discard_between fs s,
    drawSeq_initCount_le_one fs s⟩
  intro e he
  have hres := drawSeq_result s fs e he
  have hf := CreateGraphicsResources_facts e.before e.frame.env e.frame.hwnd
  refine ⟨?_, completesCreation_iff _ _ _, ?_, ?_, ?_, ?_⟩
  · rw [hres]
    exact Draw_filter_isInit _ _ _ _ _
  · intro hcomp
    refine ⟨?_, (hf.2.2.2.2.1 hcomp).2.1, (hf.2.2.2.2.1 hcomp).2.2.1⟩
    by_contra hne
    exact not_completes_of_ready _ _ _ hne hcomp
  · rw [hres, Draw_filter Call.isSetOverlayTexture _ _ _ _ _
      (by
        intro c hcm
        simp only [batch, List.mem_cons, List.mem_singleton, List.not_mem_nil, or_false] at hcm
        rcases hcm with rfl | rfl | rfl | rfl | rfl | rfl <;> rfl)
      (fun _ => rfl) (fun _ => rfl),
      filter_eq_nil_of_forall (fun c hc => isSetOverlayTexture_of_not_frame c (hf.1 c hc)),
      List.nil_append]
    split_ifs <;> rfl
  · intro hd
    rw [hres]
    exact Draw_self_of_discards _ _ _ _ _ hd
  · intro hd
    rw [hres]
    exact Draw_self_of_not_discards _ _ _ _ _ hd

/-- C9, amended, on a fresh object. In the three-call sequence without discard
(everything succeeds, everything succeeds, `Present` fails) the first call
completes resource creation and calls `Init` exactly once, on texture 7, and
`Init` is called at most once in all. In the two-call sequence where both calls
call `Init`, the first call is a discarding one. -/
theorem Init_once_per_completed_creation_witness :
    (Draw freshHelper okPlatform 1 [72, 105] 2).log.filter Call.isInit
        = [Call.Init (some 7)]
    ∧ (∀ e ∈ drawSeq freshHelper
          [frameOn okPlatform, frameOn okPlatformAgain, frameOn presentFailPlatform],
        ¬ e.discards)
    ∧ ((drawSeq freshHelper
          [frameOn okPlatform, frameOn okPlatformAgain, frameOn presentFailPlatform]).map
        Entry.initCount).sum ≤ 1
    ∧ (∃ m em, 0 ≤ m ∧ m < 1
        ∧ (drawSeq freshHelper [frameOn recreatePlatform, frameOn okPlatformAgain]).get? m
            = some em
        ∧ em.discards) := by
  have hno : ∀ e ∈ drawSeq freshHelper
      [frameOn okPlatform, frameOn okPlatformAgain, frameOn presentFailPlatform],
      ¬ e.discards := by
    intro e he
    simp only [drawSeq, List.mem_cons, List.mem_singleton, List.not_mem_nil, or_false] at he
    rcases he with rfl | rfl | rfl <;> decide
  have hfirst := ((Init_once_per_completed_creation freshHelper
    [frameOn okPlatform, frameOn okPlatformAgain, frameOn presentFailPlatform]).2.1
    (Entry.mk freshHelper (frameOn okPlatform) (Draw freshHelper okPlatform 1 [72, 105] 2))
    (List.Mem.head _)).1
  rw [if_pos (by decide)] at hfirst
  exact ⟨hfirst, hno,
    (Init_once_per_completed_creation freshHelper
      [frameOn okPlatform, frameOn okPlatformAgain, frameOn presentFailPlatform]).2.2.2 hno,
    (Init_once_per_completed_creation freshHelper
      [frameOn recreatePlatform, frameOn okPlatformAgain]).2.2.1 0 1
      (Entry.mk freshHelper (frameOn recreatePlatform)
        (Draw freshHelper recreatePlatform 1 [72, 105] 2))
      (Entry.mk (Draw freshHelper recreatePlatform 1 [72, 105] 2).self
        (frameOn okPlatformAgain)
        (Draw (Draw freshHelper recreatePlatform 1 [72, 105] 2).self okPlatformAgain 1
          [72, 105] 2))
      Nat.zero_lt_one rfl rfl
      ⟨Call.Init (some 7), by decide, rfl⟩ ⟨Call.Init (some 27), by decide, rfl⟩⟩

/-- C10: for every object, `DiscardGraphicsResources` sets the ten
render-target-scoped pointers to null and leaves the six device-scoped pointers
and the ellipse unchanged; `Shutdown` does that and also sets the six
device-scoped pointers to null, so that all sixteen are null; each of them makes
exactly one `Release` call for every pointer of its tiers that is not null, and
none for a null one; applied a second time each of them changes nothing and
releases nothing. -/
theorem release_two_tiers (s : DrawHelper) :
    (DiscardGraphicsResources s).self.targetScoped = List.replicate 10 none
    ∧ (DiscardGraphicsResources s).self.deviceScoped = s.deviceScoped
    ∧ (DiscardGraphicsResources s).self.ellipse = s.ellipse
    ∧ (DiscardGraphicsResources s).log = releases s.targetScoped
    ∧ (Shutdown s).self.targetScoped = List.replicate 10 none
    ∧ (Shutdown s).self.deviceScoped = List.replicate 6 none
    ∧ (Shutdown s).log = releases s.targetScoped ++ releases s.deviceScoped
    ∧ DiscardGraphicsResources (DiscardGraphicsResources s).self
        = Eff.mk (DiscardGraphicsResources s).self []
    ∧ Shutdown (Shutdown s).self = Eff.mk (Shutdown s).self [] := by
  have e1 : ∀ t : DrawHelper, DiscardGraphicsResources t
      = Eff.mk (DiscardGraphicsResources t).self (DiscardGraphicsResources t).log :=
    fun _ => rfl
  have e2 : ∀ t : DrawHelper, Shutdown t = Eff.mk (Shutdown t).self (Shutdown t).log :=
    fun _ => rfl
  refine ⟨targetScoped_discard s, ?_, ?_, DiscardGraphicsResources_log s, ?_, ?_,
    Shutdown_log s, ?_, ?_⟩
  · rw [DiscardGraphicsResources_self]; rfl
  · rw [DiscardGraphicsResources_self]
  · rw [Shutdown_self]; rfl
  · rw [Shutdown_self]; rfl
  · rw [e1 (DiscardGraphicsResources s).self, DiscardGraphicsResources_log]
    congr 1
    · rw [DiscardGraphicsResources_self, DiscardGraphicsResources_self]
    · rw [targetScoped_discard]; rfl
  · rw [e2 (Shutdown s).self, Shutdown_log]
    congr 1
    · rw [Shutdown_self, Shutdown_self]
    · rw [Shutdown_self]; rfl

end SampleVRO
